import Mathlib

/-!
# A formal model of the miriad-python C binding layer

This development is a shallow embedding, in Lean 4, of the error-handling and
argument-validation logic of the miriad-python foreign-function binding layer
(`src/mirtask/mirtasksupport.c`, `src/mirtask/_uviomodule.c`,
`src/mirtask/_miriad_cmodule.c`).

The wrapped native MIRIAD library is external to the repository, so every
native routine (`hopen_c`, `uvread_c`, `hio_c`, ...) is modelled as an
uninterpreted oracle passed to the wrapper as a function argument; the
wrapper's own control flow — argument checks, iostat translation, the
setjmp/longjmp "bug" recovery — is translated statement by statement from
the C source.  Numpy arrays are modelled by their metadata (type kind,
itemsize, contiguity, element count), which is all the wrappers inspect.

Platform assumptions fixed by the model (standard LP64):
`NPY_SIZEOF_INT = 4`, `NPY_SIZEOF_FLOAT = 4`, `NPY_SIZEOF_DOUBLE = 8`,
`sizeof(size_t) = 8`.
-/

namespace MiriadPython

/-- Host-language (Python) exception states that the binding layer can leave
behind.  `miriadError` is the process-wide `MiriadError` exception type
created by `mts_setup`; `ioError n` stands for `IOError` raised by
`PyErr_SetFromErrno` with `errno = n`, hence carrying the system error
string `strerror(n)` for that code. -/
inductive PyErr where
  | miriadError (msg : String)
  | userWarningPromoted (msg : String)
  | ioError (errnoCode : Int)
  | typeError (msg : String)
  | valueError (msg : String)
  | runtimeError (msg : String)
  | notImplementedError (msg : String)
  deriving Repr, DecidableEq

/-- Does the error belong to the host TypeError/ValueError family? -/
def PyErr.isTypeOrValueError : PyErr → Bool
  | .typeError _ => true
  | .valueError _ => true
  | _ => false

/-! ## mirtasksupport.c: the bug-callback / longjmp recovery shim

`bug_handler` is installed via `bughandler_c` and is invoked by the native
library during a wrapped call.  A bug event carries a severity character and
a message.  The interpreter state visible to the shim is the pending
exception (`PyErr_Occurred`), the static `bug_msg` buffer, and the list of
warnings surfaced to the host so far.  The host's warning machinery is
modelled by a `promote` policy saying which warnings `PyErr_WarnEx` turns
into pending exceptions. -/

/-- One invocation of the native library's bug callback: severity character
(`'f'` is fatal) and message. -/
structure BugEvent where
  sev : Char
  msg : String
  deriving Repr, DecidableEq

/-- The module-level mutable state of `mirtasksupport.c` as seen by the shim,
together with the host interpreter's pending-exception slot. -/
structure MtsState where
  pending : Option PyErr
  bugMsg : String
  warnings : List String
  deriving Repr, DecidableEq

/-- `bug_handler` from `mirtasksupport.c`.  Returns the updated state and
whether it transferred control non-locally (`longjmp (mts_bug_recover, 1)`).
For fatal severity the message is copied into the static `bug_msg` buffer
and the handler jumps.  Otherwise the message is surfaced as a `UserWarning`
via `PyErr_WarnEx` (which, per the `promote` policy, may instead set a
pending exception), and the handler jumps iff an exception is now pending. -/
def bug_handler (promote : String → Bool) (ev : BugEvent) (st : MtsState) :
    MtsState × Bool :=
  if ev.sev = 'f' then
    ({ st with bugMsg := ev.msg }, true)
  else
    let st1 :=
      if promote ev.msg then
        { st with pending := some (PyErr.userWarningPromoted ev.msg) }
      else
        { st with warnings := st.warnings ++ [ev.msg] }
    (st1, st1.pending.isSome)

/-- Run the bug handler over the sequence of bug events fired during one
native call; stops at the first event whose handler jumps.  Returns the
final state and whether a jump occurred. -/
def processBugs (promote : String → Bool) :
    List BugEvent → MtsState → MtsState × Bool
  | [], st => (st, false)
  | ev :: rest, st =>
    let r := bug_handler promote ev st
    if r.2 then (r.1, true) else processBugs promote rest r.1

/-- `mts_set_bug` from `mirtasksupport.c`: at the setjmp recovery point, set
the `MiriadError` exception from the saved `bug_msg` buffer — unless an
exception is already pending (a promoted warning), which is preserved. -/
def mts_set_bug (st : MtsState) : MtsState :=
  match st.pending with
  | none => { st with pending := some (PyErr.miriadError st.bugMsg) }
  | some _ => st

/-- One wrapped call protected by `MTS_CHECK_BUG`: the native call fires the
bug events `evs`; if any handler jumps, control returns to the setjmp point,
`mts_set_bug` runs and the wrapper returns the error value `NULL` (modelled
as `none`); otherwise the native call completes and yields `result`. -/
def runWrapped {α : Type} (promote : String → Bool) (evs : List BugEvent)
    (st : MtsState) (result : α) : MtsState × Option α :=
  let r := processBugs promote evs st
  if r.2 then (mts_set_bug r.1, none) else (r.1, some result)

/-! ## iostat translation (`check_iostat` in both extension modules)

Both `_uviomodule.c` and `_miriad_cmodule.c` define the identical helper,
and the hio/headio wrappers below are byte-identical between the two files,
so they are embedded once.  A native routine reporting through an `iostat`
out-parameter is modelled as an oracle returning its results together with
that status code. -/

/-- `check_iostat`: a zero status is success; a nonzero status sets `errno`
and raises `IOError` from it (carrying the system error string). -/
def check_iostat (iostat : Int) : Option PyErr :=
  if iostat = 0 then none else some (PyErr.ioError iostat)

/-- `py_hopen`: native `hopen_c` yields `(tno, iostat)`. -/
def py_hopen (hopen_c : String → String → Int × Int) (name status : String) :
    Except PyErr Int :=
  let r := hopen_c name status
  match check_iostat r.2 with
  | some e => Except.error e
  | none => Except.ok r.1

/-- `py_hflush`: native `hflush_c` yields `iostat`. -/
def py_hflush (hflush_c : Int → Int) (tno : Int) : Except PyErr Unit :=
  match check_iostat (hflush_c tno) with
  | some e => Except.error e
  | none => Except.ok ()

/-- `py_hdelete`: native `hdelete_c tno keyword` yields `iostat`. -/
def py_hdelete (hdelete_c : Int → String → Int) (tno : Int) (keyword : String) :
    Except PyErr Unit :=
  match check_iostat (hdelete_c tno keyword) with
  | some e => Except.error e
  | none => Except.ok ()

/-- `py_haccess`: native `haccess_c` yields `(itno, iostat)`. -/
def py_haccess (haccess_c : Int → String → String → Int × Int)
    (tno : Int) (keyword status : String) : Except PyErr Int :=
  let r := haccess_c tno keyword status
  match check_iostat r.2 with
  | some e => Except.error e
  | none => Except.ok r.1

/-- `py_hdaccess`: native `hdaccess_c ihandle` yields `iostat`. -/
def py_hdaccess (hdaccess_c : Int → Int) (ihandle : Int) : Except PyErr Unit :=
  match check_iostat (hdaccess_c ihandle) with
  | some e => Except.error e
  | none => Except.ok ()

/-- `py_hreada`: native `hreada_c` yields `(line, iostat)`. -/
def py_hreada (hreada_c : Int → String × Int) (ihandle : Int) :
    Except PyErr String :=
  let r := hreada_c ihandle
  match check_iostat r.2 with
  | some e => Except.error e
  | none => Except.ok r.1

/-- `py_hwritea`: native `hwritea_c ihandle line length` yields `iostat`. -/
def py_hwritea (hwritea_c : Int → String → Int → Int)
    (ihandle : Int) (line : String) (length : Int) : Except PyErr Unit :=
  match check_iostat (hwritea_c ihandle line length) with
  | some e => Except.error e
  | none => Except.ok ()

/-- `py_uvscan`: native `uvscan_c tno var` yields a status that is `0` when
the variable was found, `-1` at end of file, and a POSIX error code
otherwise; the wrapper runs `CHECK_IOSTAT` only when the status is not `-1`
and returns the status as its value. -/
def py_uvscan (uvscan_c : Int → String → Int) (tno : Int) (var : String) :
    Except PyErr Int :=
  let retval := uvscan_c tno var
  if retval ≠ -1 then
    match check_iostat retval with
    | some e => Except.error e
    | none => Except.ok retval
  else
    Except.ok retval

/-! ## Numpy array descriptors and the shared array-checking utilities

The wrappers only ever inspect an ndarray argument's type *kind*
(`PyArray_ISINTEGER` / `ISFLOAT` / `ISCOMPLEX`), its `PyArray_ITEMSIZE`,
its contiguity, and its `PyArray_SIZE`, so an array is modelled by exactly
that metadata. -/

/-- Numpy type-kind classes distinguished by the wrappers. -/
inductive NpyKind where
  | integer
  | floating
  | complexKind
  | other
  deriving Repr, DecidableEq

/-- Metadata of a numpy ndarray argument. -/
structure NdArray where
  kind : NpyKind
  itemsize : Nat
  contiguous : Bool
  size : Nat
  deriving Repr, DecidableEq

/-- MIRIAD element-type codes (`H_BYTE` ... from the native `miriad.h`),
kept symbolic since their numeric values belong to the external library. -/
inductive MirType where
  | H_BYTE
  | H_INT
  | H_INT2
  | H_INT8
  | H_REAL
  | H_DBLE
  | H_CMPLX
  deriving Repr, DecidableEq

/-- `check_int_array` from `_miriad_cmodule.c` (ValueError flavour):
integer kind, platform-int itemsize (4), contiguous. -/
def check_int_array (array : NdArray) (argname : String) : Option PyErr :=
  if ¬ (array.kind = NpyKind.integer) then
    some (PyErr.valueError (argname ++ " must be an integer ndarray"))
  else if array.itemsize ≠ 4 then
    some (PyErr.valueError (argname ++ " must be a plain-int-sized ndarray"))
  else if ¬ (array.contiguous = true) then
    some (PyErr.valueError (argname ++ " must be a contiguous ndarray"))
  else
    none

/-- `check_float_array` from `_miriad_cmodule.c`: float kind, itemsize 4,
contiguous. -/
def check_float_array (array : NdArray) (argname : String) : Option PyErr :=
  if ¬ (array.kind = NpyKind.floating) then
    some (PyErr.valueError (argname ++ " must be an float ndarray"))
  else if array.itemsize ≠ 4 then
    some (PyErr.valueError (argname ++ " must be a plain-float-sized ndarray"))
  else if ¬ (array.contiguous = true) then
    some (PyErr.valueError (argname ++ " must be a contiguous ndarray"))
  else
    none

/-- `check_double_array` from `_miriad_cmodule.c`: float kind, itemsize 8,
contiguous. -/
def check_double_array (array : NdArray) (argname : String) : Option PyErr :=
  if ¬ (array.kind = NpyKind.floating) then
    some (PyErr.valueError (argname ++ " must be an float ndarray"))
  else if array.itemsize ≠ 8 then
    some (PyErr.valueError (argname ++ " must be a double-sized ndarray"))
  else if ¬ (array.contiguous = true) then
    some (PyErr.valueError (argname ++ " must be a contiguous ndarray"))
  else
    none

/-- `check_complexf_array` from `_miriad_cmodule.c`: complex kind, itemsize
`2*NPY_SIZEOF_FLOAT = 8`, contiguous. -/
def check_complexf_array (array : NdArray) (argname : String) : Option PyErr :=
  if ¬ (array.kind = NpyKind.complexKind) then
    some (PyErr.valueError (argname ++ " must be a complex ndarray"))
  else if array.itemsize ≠ 8 then
    some (PyErr.valueError (argname ++ " must be a plain-complex-sized ndarray"))
  else if ¬ (array.contiguous = true) then
    some (PyErr.valueError (argname ++ " must be a contiguous ndarray"))
  else
    none

/-! ## `py_uvread` / `py_uvwrite`

Both extension modules wrap `uvread_c` / `uvwrite_c` with the same checks;
`_miriad_cmodule.c` uses the `check_*_array` helpers (ValueError) while
`_uviomodule.c` writes the checks inline (TypeError).  Each wrapper returns
the list of native routines it invoked (in order) alongside its host-level
result, so that "the native routine is never invoked" is a statement about
the model rather than a side inference. -/

namespace MirC

/-- `py_uvread` from `_miriad_cmodule.c`.  The native `uvread_c` oracle
returns `nread`. -/
def py_uvread (uvread_c : Int → NdArray → NdArray → NdArray → Int → Int)
    (tno : Int) (preamble data flags : NdArray) (n : Int) :
    List String × Except PyErr Int :=
  match check_double_array preamble ("preamble") with
  | some e => ([], Except.error e)
  | none =>
  match check_complexf_array data ("data") with
  | some e => ([], Except.error e)
  | none =>
  match check_int_array flags ("flags") with
  | some e => ([], Except.error e)
  | none =>
  if preamble.size ≠ 4 ∧ preamble.size ≠ 5 then
    ([], Except.error (PyErr.valueError ("preamble array must have 4 or 5 elements")))
  else if (flags.size : Int) < n then
    ([], Except.error (PyErr.valueError
      ("flags array must have at least " ++ toString n ++ " elements")))
  else if (data.size : Int) < n then
    ([], Except.error (PyErr.valueError
      ("data array must have at least " ++ toString n ++ " elements")))
  else
    (["uvread_c"], Except.ok (uvread_c tno preamble data flags n))

/-- `py_uvwrite` from `_miriad_cmodule.c`. -/
def py_uvwrite (uvwrite_c : Int → NdArray → NdArray → NdArray → Int → Unit)
    (tno : Int) (preamble data flags : NdArray) (n : Int) :
    List String × Except PyErr Unit :=
  match check_double_array preamble ("preamble") with
  | some e => ([], Except.error e)
  | none =>
  match check_complexf_array data ("data") with
  | some e => ([], Except.error e)
  | none =>
  match check_int_array flags ("flags") with
  | some e => ([], Except.error e)
  | none =>
  if preamble.size ≠ 4 ∧ preamble.size ≠ 5 then
    ([], Except.error (PyErr.valueError ("preamble array must have 4 or 5 elements")))
  else if (flags.size : Int) < n then
    ([], Except.error (PyErr.valueError
      ("flags array must have at least " ++ toString n ++ " elements")))
  else if (data.size : Int) < n then
    ([], Except.error (PyErr.valueError
      ("data array must have at least " ++ toString n ++ " elements")))
  else
    (["uvwrite_c"], Except.ok (uvwrite_c tno preamble data flags n))

end MirC

namespace Uvio

/-- `py_uvread` from `_uviomodule.c` (inline checks, TypeError flavour). -/
def py_uvread (uvread_c : Int → NdArray → NdArray → NdArray → Int → Int)
    (tno : Int) (preamble data flags : NdArray) (n : Int) :
    List String × Except PyErr Int :=
  if ¬ (preamble.kind = NpyKind.floating) then
    ([], Except.error (PyErr.typeError ("preamble must be float ndarray")))
  else if preamble.itemsize ≠ 8 then
    ([], Except.error (PyErr.typeError ("preamble must be double-sized ndarray")))
  else if ¬ (preamble.contiguous = true) then
    ([], Except.error (PyErr.typeError ("preamble must be contiguous ndarray")))
  else if ¬ (data.kind = NpyKind.complexKind) then
    ([], Except.error (PyErr.typeError ("data must be complex ndarray")))
  else if data.itemsize ≠ 8 then
    ([], Except.error (PyErr.typeError ("data must be plain-complex-sized ndarray")))
  else if ¬ (data.contiguous = true) then
    ([], Except.error (PyErr.typeError ("data must be contiguous ndarray")))
  else if ¬ (flags.kind = NpyKind.integer) then
    ([], Except.error (PyErr.typeError ("flags must be integer ndarray")))
  else if flags.itemsize ≠ 4 then
    ([], Except.error (PyErr.typeError ("flags must be plain-int-sized ndarray")))
  else if ¬ (flags.contiguous = true) then
    ([], Except.error (PyErr.typeError ("flags must be contiguous ndarray")))
  else if preamble.size ≠ 4 ∧ preamble.size ≠ 5 then
    ([], Except.error (PyErr.valueError ("preamble array must have 4 or 5 elements")))
  else if (flags.size : Int) < n then
    ([], Except.error (PyErr.valueError
      ("flags array must have at least " ++ toString n ++ " elements")))
  else if (data.size : Int) < n then
    ([], Except.error (PyErr.valueError
      ("data array must have at least " ++ toString n ++ " elements")))
  else
    (["uvread_c"], Except.ok (uvread_c tno preamble data flags n))

/-- `py_uvwrite` from `_uviomodule.c` (inline checks, TypeError flavour). -/
def py_uvwrite (uvwrite_c : Int → NdArray → NdArray → NdArray → Int → Unit)
    (tno : Int) (preamble data flags : NdArray) (n : Int) :
    List String × Except PyErr Unit :=
  if ¬ (preamble.kind = NpyKind.floating) then
    ([], Except.error (PyErr.typeError ("preamble must be float ndarray")))
  else if preamble.itemsize ≠ 8 then
    ([], Except.error (PyErr.typeError ("preamble must be double-sized ndarray")))
  else if ¬ (preamble.contiguous = true) then
    ([], Except.error (PyErr.typeError ("preamble must be contiguous ndarray")))
  else if ¬ (data.kind = NpyKind.complexKind) then
    ([], Except.error (PyErr.typeError ("data must be complex ndarray")))
  else if data.itemsize ≠ 8 then
    ([], Except.error (PyErr.typeError ("data must be plain-complex-sized ndarray")))
  else if ¬ (data.contiguous = true) then
    ([], Except.error (PyErr.typeError ("data must be contiguous ndarray")))
  else if ¬ (flags.kind = NpyKind.integer) then
    ([], Except.error (PyErr.typeError ("flags must be integer ndarray")))
  else if flags.itemsize ≠ 4 then
    ([], Except.error (PyErr.typeError ("flags must be plain-int-sized ndarray")))
  else if ¬ (flags.contiguous = true) then
    ([], Except.error (PyErr.typeError ("flags must be contiguous ndarray")))
  else if preamble.size ≠ 4 ∧ preamble.size ≠ 5 then
    ([], Except.error (PyErr.valueError ("preamble array must have 4 or 5 elements")))
  else if (flags.size : Int) < n then
    ([], Except.error (PyErr.valueError
      ("flags array must have at least " ++ toString n ++ " elements")))
  else if (data.size : Int) < n then
    ([], Except.error (PyErr.valueError
      ("data array must have at least " ++ toString n ++ " elements")))
  else
    (["uvwrite_c"], Except.ok (uvwrite_c tno preamble data flags n))

end Uvio

/-- The combined pass condition of the `py_uvread`/`py_uvwrite` checks,
written out from the specification's vocabulary (dtype kind, itemsize,
contiguity, preamble element count, minimum flags/data counts); both
modules enforce exactly these constraints. -/
def uvChecksPass (preamble data flags : NdArray) (n : Int) : Prop :=
  (preamble.kind = NpyKind.floating ∧ preamble.itemsize = 8 ∧
    preamble.contiguous = true) ∧
  (data.kind = NpyKind.complexKind ∧ data.itemsize = 8 ∧
    data.contiguous = true) ∧
  (flags.kind = NpyKind.integer ∧ flags.itemsize = 4 ∧
    flags.contiguous = true) ∧
  (preamble.size = 4 ∨ preamble.size = 5) ∧
  n ≤ (flags.size : Int) ∧ n ≤ (data.size : Int)

instance (preamble data flags : NdArray) (n : Int) :
    Decidable (uvChecksPass preamble data flags n) := by
  unfold uvChecksPass; infer_instance

/-! ## The typed hio wrapper family (`hio_generic` / `MAKE_HIO` in
`_uviomodule.c`)

`hread{b,i,j,l,r,d,c}` / `hwrite{b,i,j,l,r,d,c}` are all instances of
`hio_generic`, parametrised by direction, MIRIAD type code, numpy kind
class and element size.  The byte count handed to the native `hio_c` is
`(size_t) length * objsize`, i.e. computed in 64-bit unsigned
arithmetic. -/

/-- The numpy kind classes accepted by `hio_generic` (`enum hio_dtype`). -/
inductive HioDtype where
  | HD_INTEGER
  | HD_FLOAT
  | HD_COMPLEX
  deriving Repr, DecidableEq

/-- The argument record of one native `hio_c` invocation. -/
structure HioInvocation where
  item : Int
  dowrite : Bool
  mirtype : MirType
  offset : Int
  nbytes : Nat
  deriving Repr, DecidableEq

/-- C cast of a (signed long) value to `size_t` on LP64. -/
def sizeT (x : Int) : Nat := (x % ((2 : Int) ^ 64)).toNat

/-- Does the buffer's numpy kind satisfy the wrapper's `hio_dtype` class
(the `switch (dtype)` computing `typeok`)? -/
def hioKindOk (dtype : HioDtype) (kind : NpyKind) : Bool :=
  match dtype with
  | HioDtype.HD_INTEGER => kind == NpyKind.integer
  | HioDtype.HD_FLOAT => kind == NpyKind.floating
  | HioDtype.HD_COMPLEX => kind == NpyKind.complexKind

namespace Uvio

/-- `hio_generic` from `_uviomodule.c`: validate the buffer's kind,
itemsize and contiguity, then invoke `hio_c` with byte count
`(size_t) length * objsize` and translate its iostat.  The returned list
records the `hio_c` invocations performed. -/
def hio_generic (hio_c : HioInvocation → Int) (dowrite : Bool)
    (mirtype : MirType) (dtype : HioDtype) (objsize : Nat)
    (item : Int) (buf : NdArray) (offset length : Int) :
    List HioInvocation × Except PyErr Unit :=
  if ¬ (hioKindOk dtype buf.kind = true) then
    ([], Except.error (PyErr.typeError ("buf ndarray is of wrong type")))
  else if buf.itemsize ≠ objsize then
    ([], Except.error (PyErr.typeError ("buf ndarray has bad itemsize")))
  else if ¬ (buf.contiguous = true) then
    ([], Except.error (PyErr.typeError ("buf must be contiguous ndarray")))
  else
    let inv : HioInvocation :=
      ⟨item, dowrite, mirtype, offset, (sizeT length * objsize) % 2 ^ 64⟩
    let iostat := hio_c inv
    ([inv],
      match check_iostat iostat with
      | some e => Except.error e
      | none => Except.ok ())

end Uvio

/-- One `MAKE_HIO` instantiation: wrapper suffix, MIRIAD type code, numpy
kind class, element size in bytes. -/
structure HioSpec where
  ident : String
  mirtype : MirType
  dtype : HioDtype
  size : Nat
  deriving Repr, DecidableEq

/-- The seven `MAKE_HIO` instantiations of `_uviomodule.c`:
`MAKE_HIO(b, H_BYTE, HD_INTEGER, 1)` through
`MAKE_HIO(c, H_CMPLX, HD_COMPLEX, 8)`.  Each yields a read wrapper
(`dowrite = FALSE`) and a write wrapper (`dowrite = TRUE`). -/
def hioTable : List HioSpec :=
  [⟨"b", MirType.H_BYTE, HioDtype.HD_INTEGER, 1⟩,
   ⟨"i", MirType.H_INT, HioDtype.HD_INTEGER, 4⟩,
   ⟨"j", MirType.H_INT2, HioDtype.HD_INTEGER, 2⟩,
   ⟨"l", MirType.H_INT8, HioDtype.HD_INTEGER, 8⟩,
   ⟨"r", MirType.H_REAL, HioDtype.HD_FLOAT, 4⟩,
   ⟨"d", MirType.H_DBLE, HioDtype.HD_FLOAT, 8⟩,
   ⟨"c", MirType.H_CMPLX, HioDtype.HD_COMPLEX, 8⟩]

/-! ## `py_rdhd_generic` from `_miriad_cmodule.c`

The generic header-item reader: probe the item with `hdprobe_c`, dispatch
on the reported type string and size, and for single-element numeric items
open the item, read one value with `hio_c` and close it again.  The value
bytes live in the external library, so the model tracks the numpy scalar
type produced, not the bytes. -/

/-- Numpy scalar types that `py_rdhd_generic` can allocate. -/
inductive ScalarType where
  | float32
  | float64
  | int16
  | int32
  | int64
  | complex64
  deriving Repr, DecidableEq

/-- The host-level value produced by a successful `py_rdhd_generic` call:
Python `None`, a Python string, or a numpy scalar of the given type. -/
inductive RdhdValue where
  | nothing
  | str (s : String)
  | scalar (t : ScalarType)
  deriving Repr, DecidableEq

namespace MirC

/-- `py_rdhd_generic` from `_miriad_cmodule.c`, lines 468-555.  Oracles:
`hdprobe_c tno itemname` yields `(descr-buffer, type-string, n)`;
`haccess_c tno itemname "read"` yields `(hdhandle, iostat)`;
`hio_c hdhandle mirtype offset length` yields `iostat`;
`hdaccess_c hdhandle` yields `iostat`.  In the unexpected-type branch the
C code runs `CHECK_IOSTAT` on the stale (zero) `haccess` status, closes
the item and only then returns the pending ValueError; the model mirrors
that. -/
def py_rdhd_generic (hdprobe_c : Int → String → String × String × Int)
    (haccess_c : Int → String → String → Int × Int)
    (hio_c : Int → MirType → Int → Int → Int)
    (hdaccess_c : Int → Int)
    (tno : Int) (itemname : String) : Except PyErr RdhdValue :=
  let p := hdprobe_c tno itemname
  let buffer := p.1
  let ty := p.2.1
  let n := p.2.2
  if ty = "nonexistent" then
    Except.ok RdhdValue.nothing
  else if ty = "unknown" then
    Except.error (PyErr.valueError
      ("item \"" ++ itemname ++ "\" is not of a well-defined type"))
  else if n = 0 then
    Except.error (PyErr.valueError
      ("the size of item \"" ++ itemname ++ "\" couldn't be determined"))
  else if ty = "binary" then
    Except.error (PyErr.valueError
      ("item \"" ++ itemname ++ "\" is of a mixed binary type"))
  else if ty = "text" then
    Except.error (PyErr.valueError
      ("item \"" ++ itemname ++ "\" is of an extended textual type"))
  else if ty = "character" then
    Except.ok (RdhdValue.str buffer)
  else if n ≠ 1 then
    Except.error (PyErr.valueError
      ("the size of item \"" ++ itemname ++ "\" is " ++ toString n ++ ", not one"))
  else
    let ha := haccess_c tno itemname ("read")
    let hdhandle := ha.1
    match check_iostat ha.2 with
    | some e => Except.error e
    | none =>
      let step : Option (RdhdValue × Int) :=
        if ty = "real" then
          some (RdhdValue.scalar ScalarType.float32, hio_c hdhandle MirType.H_REAL 4 4)
        else if ty = "double" then
          some (RdhdValue.scalar ScalarType.float64, hio_c hdhandle MirType.H_DBLE 8 8)
        else if ty = "integer*2" then
          some (RdhdValue.scalar ScalarType.int16, hio_c hdhandle MirType.H_INT2 4 2)
        else if ty = "integer" then
          some (RdhdValue.scalar ScalarType.int32, hio_c hdhandle MirType.H_INT 4 4)
        else if ty = "integer*8" then
          some (RdhdValue.scalar ScalarType.int64, hio_c hdhandle MirType.H_INT8 8 8)
        else if ty = "complex" then
          some (RdhdValue.scalar ScalarType.complex64, hio_c hdhandle MirType.H_CMPLX 8 8)
        else
          none
      let iostat :=
        match step with
        | some s => s.2
        | none => 0
      match check_iostat iostat with
      | some e => Except.error e
      | none =>
      match check_iostat (hdaccess_c hdhandle) with
      | some e => Except.error e
      | none =>
      match step with
      | some s => Except.ok s.1
      | none => Except.error (PyErr.valueError
          ("unexpected type \"" ++ ty ++ "\" for item \"" ++ itemname ++ "\""))

end MirC

/-- `py_probe_uvchkshadow` (present identically in both modules): reports
the compile-time `HAVE_UVCHKSHADOW` configuration as a Python boolean and,
in either configuration, invokes no native routine (empty call list). -/
def py_probe_uvchkshadow (haveUvchkshadow : Bool) : List String × Bool :=
  ([], haveUvchkshadow)

/-! ## The exported method tables

One row per `PyMethodDef` entry, with the `DEF(name, signature)` macro
(`{ #name, py_##name, METH_VARARGS, #name " " signature }`) expanded by
hand; `doc` is the entry's documentation string exactly as the C
preprocessor produces it.  Two audit flags are transcribed from each
wrapper's body:

* `callsNative`: every path of the wrapper body that returns a non-error
  result invokes at least one routine of the wrapped native libraries
  (MIRIAD, or its bundled wcslib for `mirwcs_celset`).  For
  `uvchkshadow` the flag describes the `HAVE_UVCHKSHADOW` build; in the
  other build that wrapper only ever raises `NotImplementedError`.
  `probe_uvchkshadow` returns a constant boolean in both builds without
  any native call.

* `arraysValidated`: every ndarray argument the wrapper accepts is
  checked for type kind, itemsize and contiguity before its data pointer
  is handed to native code (vacuously true for wrappers without ndarray
  arguments). -/

/-- One entry of a module's `PyMethodDef` table plus audit flags. -/
structure MethodDef where
  name : String
  doc : String
  callsNative : Bool
  arraysValidated : Bool
  deriving Repr, DecidableEq

/-- Rows 0-24 of `uvio_methods` (split for elaboration speed). -/
def uvio_methods_0 : List MethodDef :=
  [⟨"hopen", "hopen (str name, str status) => int tno", true, true⟩,
   ⟨"hflush", "hflush (int tno) => void", true, true⟩,
   ⟨"habort", "habort (void) => void", true, true⟩,
   ⟨"hrm", "hrm (int tno) => void", true, true⟩,
   ⟨"hclose", "hclose (int tno) => void", true, true⟩,
   ⟨"hdelete", "hdelete (int tno, str keyword) => void", true, true⟩,
   ⟨"haccess", "haccess (int tno, str keyword, str status) => int itno", true, true⟩,
   ⟨"hmode", "hmode (int tno) => str mode", true, true⟩,
   ⟨"hexists", "hexists (int tno, str keyword) => int retval", true, true⟩,
   ⟨"hdaccess", "hdaccess (int ihandle) => void", true, true⟩,
   ⟨"hsize", "hsize (int ihandle) => long retval", true, true⟩,
   ⟨"hseek", "hseek (int ihandle, long offset) => void", true, true⟩,
   ⟨"htell", "htell (int ihandle) => long retval", true, true⟩,
   ⟨"hreada", "hreada (int ihandle) => str line", true, true⟩,
   ⟨"hwritea", "hwritea (int ihandle, str line, long length) => void", true, true⟩,
   ⟨"hreadb", "hreadb (int ihandle, byte-ndarray buf, long offset, long length) => void", true, true⟩,
   ⟨"hwriteb", "hwriteb (int ihandle, byte-ndarray buf, long offset, long length) => void", true, true⟩,
   ⟨"hreadi", "hreadi (int ihandle, int-ndarray buf, long offset, long length) => void", true, true⟩,
   ⟨"hwritei", "hwritei (int ihandle, int-ndarray buf, long offset, long length) => void", true, true⟩,
   ⟨"hreadj", "hreadj (int ihandle, int2-ndarray buf, long offset, long length) => void", true, true⟩,
   ⟨"hwritej", "hwritej (int ihandle, int2-ndarray buf, long offset, long length) => void", true, true⟩,
   ⟨"hreadl", "hreadl (int ihandle, int8-ndarray buf, long offset, long length) => void", true, true⟩,
   ⟨"hwritel", "hwritel (int ihandle, int8-ndarray buf, long offset, long length) => void", true, true⟩,
   ⟨"hreadr", "hreadr (int ihandle, float-ndarray buf, long offset, long length) => void", true, true⟩,
   ⟨"hwriter", "hwriter (int ihandle, float-ndarray buf, long offset, long length) => void", true, true⟩]

/-- Rows 25-49 of `uvio_methods` (split for elaboration speed). -/
def uvio_methods_1 : List MethodDef :=
  [⟨"hreadd", "hreadd (int ihandle, double-ndarray buf, long offset, long length) => void", true, true⟩,
   ⟨"hwrited", "hwrited (int ihandle, double-ndarray buf, long offset, long length) => void", true, true⟩,
   ⟨"hreadc", "hreadc (int ihandle, complex-ndarray buf, long offset, long length) => void", true, true⟩,
   ⟨"hwritec", "hwritec (int ihandle, complex-ndarray buf, long offset, long length) => void", true, true⟩,
   ⟨"hisopen", "hisopen (int tno, str status) => void", true, true⟩,
   ⟨"hiswrite", "hiswrite (int tno, str text) => void", true, true⟩,
   ⟨"hisclose", "hisclose (int tno) => void", true, true⟩,
   ⟨"wrhdr", "wrhdr (int tno, str keyword, double value) => void", true, true⟩,
   ⟨"wrhdi", "wrhdi (int tno, str keyword, int value) => void", true, true⟩,
   ⟨"wrhdl", "wrhdl (int tno, str keyword, int value) => void", true, true⟩,
   ⟨"wrhdd", "wrhdd (int tno, str keyword, double value) => void", true, true⟩,
   ⟨"wrhdc", "wrhdc (int tno, str keyword, complex value) => void", true, true⟩,
   ⟨"wrhda", "wrhda (int tno, str keyword, str value) => void", true, true⟩,
   ⟨"rdhdr", "rdhdr (int tno, str keyword, double defval) => float value", true, true⟩,
   ⟨"rdhdi", "rdhdi (int tno, str keyword, int defval) => int value", true, true⟩,
   ⟨"rdhdl", "rdhdl (int tno, str keyword, bool-as-int defval) => bool-as-int value", true, true⟩,
   ⟨"rdhdd", "rdhdd (int tno, str keyword, double defval) => double value", true, true⟩,
   ⟨"rdhdc", "rdhdc (int tno, str keyword, complx defval) => complex value", true, true⟩,
   ⟨"rdhda", "rdhda (int tno, str keyword, str defval) => str value", true, true⟩,
   ⟨"hdcopy", "hdcopy (int tin, int tout, str keyword) => void", true, true⟩,
   ⟨"hdprsnt", "hdprsnt (int tno, str keyword) => int retval", true, true⟩,
   ⟨"hdprobe", "hdprobe (int tno, str keyword) => (str descr, str type, int n)", true, true⟩,
   ⟨"uvopen", "uvopen (str name, str status) => int tno", true, true⟩,
   ⟨"uvclose", "uvclose (int tno) => void", true, true⟩,
   ⟨"uvflush", "uvflush (int tno) => void", true, true⟩]

/-- Rows 50-74 of `uvio_methods` (split for elaboration speed). -/
def uvio_methods_2 : List MethodDef :=
  [⟨"uvnext", "uvnext (int tno) => void", true, true⟩,
   ⟨"uvrewind", "uvrewind (int tno) => void", true, true⟩,
   ⟨"uvcopyvr", "uvcopyvr (int tno, int tout) => void", true, true⟩,
   ⟨"uvupdate", "uvupdate (int tno) => int retval", true, true⟩,
   ⟨"uvvarini", "uvvarini (int tno) => int vhan", true, true⟩,
   ⟨"uvvarset", "uvvarset (int vhan, str var) => void", true, true⟩,
   ⟨"uvvarcpy", "uvvarcpy (int vhan, int tout) => void", true, true⟩,
   ⟨"uvvarupd", "uvvarupd (int vhan) => int retval", true, true⟩,
   ⟨"uvgetvra", "uvgetvra (int tno, str var) => str retval", true, true⟩,
   ⟨"uvgetvri", "uvgetvri (int tno, str var, int n) => (tuple of n int32 values)", true, true⟩,
   ⟨"uvgetvrj", "uvgetvrj (int tno, str var, int n) => (tuple of n int16 values)", true, true⟩,
   ⟨"uvgetvrr", "uvgetvrr (int tno, str var, int n) => (tuple of n float values)", true, true⟩,
   ⟨"uvgetvrd", "uvgetvrd (int tno, str var, int n) => (tuple of n double values)", true, true⟩,
   ⟨"uvgetvrc", "uvgetvrc (int tno, str var, int n) => (tuple of n complex values)", true, true⟩,
   ⟨"uvrdvra", "uvrdvra (int tno, str var, str dflt) => str retval", true, true⟩,
   ⟨"uvrdvri", "uvrdvri (int tno, str var, int dflt) => int retval", true, true⟩,
   ⟨"uvrdvrr", "uvrdvrr (int tno, str var, float dflt) => float retval", true, true⟩,
   ⟨"uvrdvrd", "uvrdvrd (int tno, str var, double dflt) => double retval", true, true⟩,
   ⟨"uvrdvrc", "uvrdvrc (int tno, str var, (float,float) dflt) => (float,float) retval", true, true⟩,
   ⟨"uvprobvr", "uvprobvr (int vhan, str var) => (char type, int length, int updated)", true, true⟩,
   ⟨"uvtrack", "uvtrack (int tno, str name, str switches) => void", true, true⟩,
   ⟨"uvscan", "uvscan (int tno, str var) => int retval", true, true⟩,
   ⟨"uvread", "uvread (int tno, double-ndarray preamble, float-ndarray data,\n int-ndarray flags, int n) => int retval", true, true⟩,
   ⟨"uvwrite", "uvwrite (int tno, double-ndarray preamble, float-ndarray data,\n int-ndarray flags, int n) => void", true, true⟩,
   ⟨"uvselect", "uvselect (int tno, str object, double p1, double p2, int flag) => None", true, true⟩]

/-- Rows 75-99 of `uvio_methods` (split for elaboration speed). -/
def uvio_methods_3 : List MethodDef :=
  [⟨"uvset", "uvset (int tno, str object, str type, int n, double p1,\n double p2, double p3) => void", true, true⟩,
   ⟨"uvflgwr", "uvflgwr (int tno, int-ndarray flags) => void", true, true⟩,
   ⟨"uvinfo", "uvinfo (int tno, str object, double-ndarray data) => void", true, true⟩,
   ⟨"uvchkshadow", "uvchkshadow (int tno, double diameter_meters) => bool", true, true⟩,
   ⟨"probe_uvchkshadow", "probe_uvchkshadow () => bool", false, true⟩,
   ⟨"uvputvri", "uvputvri (int tno, str name, int-ndarray value) => void", true, true⟩,
   ⟨"uvputvrr", "uvputvrr (int tno, str name, float-ndarray value) => void", true, true⟩,
   ⟨"uvputvrd", "uvputvrd (int tno, str name, double-ndarray value) => void", true, true⟩,
   ⟨"uvputvra", "uvputvra (int tno, str name, str value) => void", true, true⟩,
   ⟨"mkopen", "mkopen (int tno, str name, str status) => int handle", true, true⟩,
   ⟨"mkclose", "mkclose (int handle) => void", true, true⟩,
   ⟨"mkread", "mkread (int handle, int mode, int-ndarray flags, int offset, int n) => int nread", true, true⟩,
   ⟨"mkwrite", "mkwrite (int handle, int mode, int-ndarray flags, int offset, int n) => void", true, true⟩,
   ⟨"mkflush", "mkflush (int handle) => void", true, true⟩,
   ⟨"keyinit", "keyinit (str task) => void", true, true⟩,
   ⟨"keyput", "keyput (str task, str string) => void", true, true⟩,
   ⟨"keyini", "keyini (list argv) => void", true, true⟩,
   ⟨"keyfin", "keyfin (void) => void", true, true⟩,
   ⟨"keyprsnt", "keyprsnt (str keyword) => int retval", true, true⟩,
   ⟨"keya", "keya (str keyword, str default) => str value [for words]", true, true⟩,
   ⟨"keyf", "keyf (str keyword, str default) => str value [for filenames]", true, true⟩,
   ⟨"keyd", "keyd (str keyword, double default) => double value", true, true⟩,
   ⟨"keyr", "keyr (str keyword, float default) => float value", true, true⟩,
   ⟨"keyi", "keyi (str keyword, int default) => int value", true, true⟩,
   ⟨"keyl", "keyl (str keyword, int default) => int value [for booleans]", true, true⟩]

/-- Rows 100-102 of `uvio_methods` (split for elaboration speed). -/
def uvio_methods_4 : List MethodDef :=
  [⟨"mkeyd", "mkeyd (str keyword, int nmax) => (tuple of double values)", true, true⟩,
   ⟨"mkeyr", "mkeyr (str keyword, int nmax) => (tuple of float values)", true, true⟩,
   ⟨"mkeyi", "mkeyi (str keyword, int nmax) => (tuple of int values)", true, true⟩]

/-- The `uvio_methods` table of `_uviomodule.c`. -/
def uvio_methods : List MethodDef :=
  uvio_methods_0 ++ uvio_methods_1 ++ uvio_methods_2 ++ uvio_methods_3 ++ uvio_methods_4

/-- Rows 0-24 of `miriad_c_methods` (split for elaboration speed). -/
def miriad_c_methods_0 : List MethodDef :=
  [⟨"hopen", "hopen (str name, str status) => int tno", true, true⟩,
   ⟨"hflush", "hflush (int tno) => void", true, true⟩,
   ⟨"habort", "habort (void) => void", true, true⟩,
   ⟨"hrm", "hrm (int tno) => void", true, true⟩,
   ⟨"hclose", "hclose (int tno) => void", true, true⟩,
   ⟨"hdelete", "hdelete (int tno, str itemname) => void", true, true⟩,
   ⟨"haccess", "haccess (int tno, str itemname, str status) => int itno", true, true⟩,
   ⟨"hmode", "hmode (int tno) => str mode", true, true⟩,
   ⟨"hexists", "hexists (int tno, str itemname) => int retval", true, true⟩,
   ⟨"hdaccess", "hdaccess (int ihandle) => void", true, true⟩,
   ⟨"hsize", "hsize (int ihandle) => long retval", true, true⟩,
   ⟨"hio_generic", "hio_generic (int iswrite, int ihandle, ndarray buf, long offset, long nbytes) => void", true, true⟩,
   ⟨"hisopen", "hisopen (int tno, str status) => void", true, true⟩,
   ⟨"hiswrite", "hiswrite (int tno, str text) => void", true, true⟩,
   ⟨"hisclose", "hisclose (int tno) => void", true, true⟩,
   ⟨"wrhd_generic", "wrhd_generic (int tno, str itemname, object value) => void", true, true⟩,
   ⟨"rdhd_generic", "rdhd_generic (int tno, str itemname) => obj value", true, true⟩,
   ⟨"hdcopy", "hdcopy (int tin, int tout, str itemname) => void", true, true⟩,
   ⟨"hdprsnt", "hdprsnt (int tno, str itemname) => int retval", true, true⟩,
   ⟨"hdprobe", "hdprobe (int tno, str itemname) => (str descr, str type, int n)", true, true⟩,
   ⟨"uvopen", "uvopen (str name, str status) => int tno", true, true⟩,
   ⟨"uvclose", "uvclose (int tno) => void", true, true⟩,
   ⟨"uvflush", "uvflush (int tno) => void", true, true⟩,
   ⟨"uvnext", "uvnext (int tno) => void", true, true⟩,
   ⟨"uvrewind", "uvrewind (int tno) => void", true, true⟩]

/-- Rows 25-49 of `miriad_c_methods` (split for elaboration speed). -/
def miriad_c_methods_1 : List MethodDef :=
  [⟨"uvcopyvr", "uvcopyvr (int tno, int tout) => void", true, true⟩,
   ⟨"uvupdate", "uvupdate (int tno) => int retval", true, true⟩,
   ⟨"uvvarini", "uvvarini (int tno) => int vhan", true, true⟩,
   ⟨"uvvarset", "uvvarset (int vhan, str var) => void", true, true⟩,
   ⟨"uvvarcpy", "uvvarcpy (int vhan, int tout) => void", true, true⟩,
   ⟨"uvvarupd", "uvvarupd (int vhan) => int retval", true, true⟩,
   ⟨"uvgetvra", "uvgetvra (int tno, str var) => str retval", true, true⟩,
   ⟨"uvgetvri", "uvgetvri (int tno, str var, int n) => (tuple of n int32 values)", true, true⟩,
   ⟨"uvgetvrj", "uvgetvrj (int tno, str var, int n) => (tuple of n int16 values)", true, true⟩,
   ⟨"uvgetvrr", "uvgetvrr (int tno, str var, int n) => (tuple of n float values)", true, true⟩,
   ⟨"uvgetvrd", "uvgetvrd (int tno, str var, int n) => (tuple of n double values)", true, true⟩,
   ⟨"uvgetvrc", "uvgetvrc (int tno, str var, int n) => (tuple of n complex values)", true, true⟩,
   ⟨"uvrdvr_generic", "uvrdvr_generic (int tno, str var) => obj value", true, true⟩,
   ⟨"uvprobvr", "uvprobvr (int vhan, str var) => (char type, int length, int updated)", true, true⟩,
   ⟨"uvtrack", "uvtrack (int tno, str name, str switches) => void", true, true⟩,
   ⟨"uvscan", "uvscan (int tno, str var) => int retval", true, true⟩,
   ⟨"uvread", "uvread (int tno, double-ndarray preamble, float-ndarray data,\n int-ndarray flags, int n) => int retval", true, true⟩,
   ⟨"uvwrite", "uvwrite (int tno, double-ndarray preamble, float-ndarray data,\n int-ndarray flags, int n) => void", true, true⟩,
   ⟨"uvselect", "uvselect (int tno, str object, double p1, double p2, int flag) => None", true, true⟩,
   ⟨"uvset", "uvset (int tno, str object, str type, int n, double p1,\n double p2, double p3) => void", true, true⟩,
   ⟨"uvflgwr", "uvflgwr (int tno, int-ndarray flags) => void", true, true⟩,
   ⟨"uvinfo", "uvinfo (int tno, str object, double-ndarray data) => void", true, true⟩,
   ⟨"uvchkshadow", "uvchkshadow (int tno, double diameter_meters) => bool", true, true⟩,
   ⟨"probe_uvchkshadow", "probe_uvchkshadow () => bool", false, true⟩,
   ⟨"uvputvri", "uvputvri (int tno, str name, int-ndarray value) => void", true, true⟩]

/-- Rows 50-74 of `miriad_c_methods` (split for elaboration speed). -/
def miriad_c_methods_2 : List MethodDef :=
  [⟨"uvputvrr", "uvputvrr (int tno, str name, float-ndarray value) => void", true, true⟩,
   ⟨"uvputvrd", "uvputvrd (int tno, str name, double-ndarray value) => void", true, true⟩,
   ⟨"uvputvra", "uvputvra (int tno, str name, str value) => void", true, true⟩,
   ⟨"xyopen", "xyopen (str path, str mode, int naxis, int-ndarray axes) => int tno", true, true⟩,
   ⟨"xyclose", "xyclose (int tno) => void", true, true⟩,
   ⟨"xyflush", "xyflush (int tno) => void", true, true⟩,
   ⟨"xyread", "xyread (int tno, int index, float-ndarray data) => void", true, true⟩,
   ⟨"xywrite", "xywrite (int tno, int index, float-ndarray data) => void", true, true⟩,
   ⟨"xyflgrd", "xyflgrd (int tno, int index, int-ndarray flags) => void", true, true⟩,
   ⟨"xyflgwr", "xyflgwr (int tno, int index, int-ndarray flags) => void", true, true⟩,
   ⟨"xysetpl", "xysetpl (int tno, int naxis, int-ndarray axes) => void", true, true⟩,
   ⟨"mkopen", "mkopen (int tno, str name, str status) => int handle", true, true⟩,
   ⟨"mkclose", "mkclose (int handle) => void", true, true⟩,
   ⟨"mkread", "mkread (int handle, int mode, int-ndarray flags, int offset, int n) => int nread", true, true⟩,
   ⟨"mkwrite", "mkwrite (int handle, int mode, int-ndarray flags, int offset, int n) => void", true, true⟩,
   ⟨"mkflush", "mkflush (int handle) => void", true, true⟩,
   ⟨"xyzopen", "xyzopen (str path, str mode, int naxis, int-ndarray axlen) => (int tno, int naxis)", true, true⟩,
   ⟨"xyzclose", "xyzclose (int tno) => void", true, true⟩,
   ⟨"xyzflush", "xyzflush (int tno) => void", true, true⟩,
   ⟨"xyzsetup", "xyzsetup (int tno, str subcube, int-ndarray blc, int-ndarray trc) => (int-ndarray viraxlen, int-ndarray vircubesize)", true, true⟩,
   ⟨"xyzs2c", "xyzs2c (int tno, int subcubenr, int-ndarray coords) => void", true, true⟩,
   ⟨"xyzc2s", "xyzc2s (int tno, int-ndarray coords) => int subcubenr", true, true⟩,
   ⟨"xyzread", "xyzread (int tno, int-ndarray coords, float-ndarray data, int-ndarray mask) => int ndata", true, true⟩,
   ⟨"xyzpixrd", "xyzpixrd (int tno, int pixnum) => (float data, int mask)", true, true⟩,
   ⟨"xyzprfrd", "xyzprfrd (int tno, int profnum, float-ndarray data, int-ndarray mask) => int ndata", true, true⟩]

/-- Rows 75-96 of `miriad_c_methods` (split for elaboration speed). -/
def miriad_c_methods_3 : List MethodDef :=
  [⟨"xyzwrite", "xyzwrite (int tno, int-ndarray coords, float-ndarray data, int-ndarray mask, int ndata) => void", true, true⟩,
   ⟨"xyzprfwr", "xyzprfwr (int tno, int profnum, float-ndarray data, int-ndarray mask, int ndata) => void", true, true⟩,
   ⟨"keyinit", "keyinit (str task) => void", true, true⟩,
   ⟨"keyput", "keyput (str task, str string) => void", true, true⟩,
   ⟨"keyini", "keyini (list argv) => void", true, true⟩,
   ⟨"keyfin", "keyfin (void) => void", true, true⟩,
   ⟨"keyprsnt", "keyprsnt (str keyword) => int retval", true, true⟩,
   ⟨"keya", "keya (str keyword, str default) => str value [for words]", true, true⟩,
   ⟨"keyf", "keyf (str keyword, str default) => str value [for filenames]", true, true⟩,
   ⟨"keyd", "keyd (str keyword, double default) => double value", true, true⟩,
   ⟨"keyr", "keyr (str keyword, float default) => float value", true, true⟩,
   ⟨"keyi", "keyi (str keyword, int default) => int value", true, true⟩,
   ⟨"keyl", "keyl (str keyword, int default) => int value [for booleans]", true, true⟩,
   ⟨"mkeyd", "mkeyd (str keyword, int nmax) => (tuple of double values)", true, true⟩,
   ⟨"mkeyr", "mkeyr (str keyword, int nmax) => (tuple of float values)", true, true⟩,
   ⟨"mkeyi", "mkeyi (str keyword, int nmax) => (tuple of int values)", true, true⟩,
   ⟨"mirwcs_set_celoffset", "mirwcs_set_celoffset (_Wcsprm params, int value) => void", false, true⟩,
   ⟨"mirwcs_set_celphitheta", "mirwcs_set_celphitheta (_Wcsprm params, double phi0, double theta0) => void", false, true⟩,
   ⟨"mirwcs_set_celref", "mirwcs_set_celref (_Wcsprm params, double lng0, double lat0) => void", false, true⟩,
   ⟨"mirwcs_set_prjcode", "mirwcs_set_prjcode (_Wcsprm params, str code) => void", false, true⟩,
   ⟨"mirwcs_set_prjpv", "mirwcs_set_prjpv (_Wcsprm params, ind index, double value) => void", false, true⟩,
   ⟨"mirwcs_celset", "mirwcs_celset (_Wcsprm params) => error-string or None", true, true⟩]

/-- The `methods` table of `_miriad_cmodule.c`. -/
def miriad_c_methods : List MethodDef :=
  miriad_c_methods_0 ++ miriad_c_methods_1 ++ miriad_c_methods_2 ++ miriad_c_methods_3

/-- The exported entry points whose bodies only write fields of the
wrapped `struct wcsprm` and therefore invoke no native routine. -/
def wcsFieldSetters : List String :=
  ["mirwcs_set_celoffset", "mirwcs_set_celphitheta", "mirwcs_set_celref",
   "mirwcs_set_prjcode", "mirwcs_set_prjpv"]

/-! ## Module-level mutable state owned by the repository

`mirtasksupport.c` declares three module-level mutable objects (each
extension module links its own copy of the file).  `writers` lists the
repository operations that store into each one. -/

/-- A module-level variable of the repository's C code. -/
structure CGlobal where
  name : String
  isMutable : Bool
  isExceptionTypeHandle : Bool
  writers : List String
  deriving Repr, DecidableEq

/-- The module-level variables of `mirtasksupport.c`: the `MiriadError`
exception-type handle, the setjmp recovery buffer and the static fatal
message buffer. -/
def mirtasksupport_globals : List CGlobal :=
  [⟨"mts_exc_miriad_err", true, true, ["mts_setup"]⟩,
   ⟨"mts_bug_recover", true, false, ["MTS_CHECK_BUG (setjmp in every wrapper)"]⟩,
   ⟨"bug_msg", true, false, ["bug_handler"]⟩]

/-! ## Lemmas about the bug-recovery shim -/

/-- If `bug_handler` returns to the native caller (no jump), no exception is
pending afterwards. -/
theorem bug_handler_proceed_pending (promote : String → Bool) (ev : BugEvent)
    (st : MtsState) (h : (bug_handler promote ev st).2 = false) :
    (bug_handler promote ev st).1.pending = none := by
  unfold bug_handler at *
  by_cases hf : ev.sev = 'f'
  · simp [hf] at h
  · simp only [hf, if_false, ite_false] at *
    cases hpend : (if promote ev.msg then
        { st with pending := some (PyErr.userWarningPromoted ev.msg) }
      else { st with warnings := st.warnings ++ [ev.msg] }).pending with
    | none => simp [hpend]
    | some e => simp [hpend] at h

/-- Processing a concatenation of bug-event lists: the second list is only
reached when the first causes no jump. -/
theorem processBugs_append (promote : String → Bool) (l1 l2 : List BugEvent)
    (st : MtsState) :
    processBugs promote (l1 ++ l2) st =
      (if (processBugs promote l1 st).2 then processBugs promote l1 st
       else processBugs promote l2 (processBugs promote l1 st).1) := by
  induction l1 generalizing st with
  | nil => simp [processBugs]
  | cons ev rest ih =>
    simp only [List.cons_append, processBugs]
    by_cases h : (bug_handler promote ev st).2
    · simp [h]
    · simp [h, ih]

/-- If the whole event sequence causes no jump and no exception was pending
at the start, none is pending at the end. -/
theorem processBugs_pending_none (promote : String → Bool) (l : List BugEvent)
    (st : MtsState) (h0 : st.pending = none)
    (h : (processBugs promote l st).2 = false) :
    (processBugs promote l st).1.pending = none := by
  induction l generalizing st with
  | nil => simpa [processBugs] using h0
  | cons ev rest ih =>
    simp only [processBugs] at *
    by_cases hb : (bug_handler promote ev st).2
    · simp [hb] at h
    · simp only [hb, if_false, ite_false] at h ⊢
      exact ih _ (bug_handler_proceed_pending promote ev st (by simpa using hb)) h

/-- Claim C1: during a wrapped call in which the native library invokes the
bug callback with fatal severity `'f'` (after any prefix of bug events that
did not abort the call), control returns non-locally to the wrapper's
`MTS_CHECK_BUG` setjmp point, the wrapper returns the error value `NULL`,
and the process-wide `MiriadError` exception is set carrying exactly the
message string the callback received. -/
theorem fatal_bug_aborts_and_sets_miriad_error
    (promote : String → Bool) (evs1 rest : List BugEvent) (st : MtsState)
    (m : String) {α : Type} (r : α)
    (h0 : st.pending = none)
    (h1 : (processBugs promote evs1 st).2 = false) :
    (runWrapped promote (evs1 ++ ⟨'f', m⟩ :: rest) st r).2 = none ∧
    (runWrapped promote (evs1 ++ ⟨'f', m⟩ :: rest) st r).1.pending =
      some (PyErr.miriadError m) := by
  have hpend := processBugs_pending_none promote evs1 st h0 h1
  unfold runWrapped
  rw [processBugs_append]
  simp only [h1, if_false, ite_false]
  simp [processBugs, bug_handler, mts_set_bug, hpend]

/-- Witness for C1: one non-fatal event followed by a fatal one with message
`"boom"`; the call aborts with `MiriadError "boom"`. -/
theorem fatal_bug_aborts_and_sets_miriad_error_witness :
    (runWrapped (fun _ => false) ([⟨'w', "care"⟩] ++ ⟨'f', "boom"⟩ :: [])
      ⟨none, "", []⟩ (0 : Nat)).2 = none ∧
    (runWrapped (fun _ => false) ([⟨'w', "care"⟩] ++ ⟨'f', "boom"⟩ :: [])
      ⟨none, "", []⟩ (0 : Nat)).1.pending = some (PyErr.miriadError "boom") :=
  fatal_bug_aborts_and_sets_miriad_error (fun _ => false) [⟨'w', "care"⟩] []
    ⟨none, "", []⟩ "boom" 0 rfl (by decide)

/-- Claim C2: a bug-callback invocation with non-fatal severity surfaces the
message as a host `UserWarning` and lets the native call continue normally;
but when the host's warning handling promotes the warning to a pending
exception, the call is aborted through the same non-local transfer and the
promoted exception is preserved — not overwritten by a `MiriadError`. -/
theorem nonfatal_bug_warns_or_promotes
    (promote : String → Bool) (evs1 : List BugEvent) (st : MtsState)
    (sev : Char) (m : String) {α : Type} (r : α)
    (h0 : st.pending = none)
    (h1 : (processBugs promote evs1 st).2 = false)
    (hsev : sev ≠ 'f') :
    (promote m = false →
      runWrapped promote (evs1 ++ [⟨sev, m⟩]) st r =
        ({ (processBugs promote evs1 st).1 with
            warnings := (processBugs promote evs1 st).1.warnings ++ [m] },
          some r)) ∧
    (promote m = true →
      (runWrapped promote (evs1 ++ [⟨sev, m⟩]) st r).2 = none ∧
      (runWrapped promote (evs1 ++ [⟨sev, m⟩]) st r).1.pending =
        some (PyErr.userWarningPromoted m)) := by
  have hpend := processBugs_pending_none promote evs1 st h0 h1
  constructor
  · intro hp
    unfold runWrapped
    rw [processBugs_append]
    simp only [h1, if_false, ite_false]
    simp [processBugs, bug_handler, hsev, hp, hpend]
  · intro hp
    unfold runWrapped
    rw [processBugs_append]
    simp only [h1, if_false, ite_false]
    simp [processBugs, bug_handler, hsev, hp, hpend, mts_set_bug]

/-- Witness for C2: a non-promoted warning is recorded and the call
completes; a promoted one aborts it with the promoted exception. -/
theorem nonfatal_bug_warns_or_promotes_witness :
    (runWrapped (fun _ => false) ([] ++ [⟨'w', "note"⟩]) ⟨none, "", []⟩ (5 : Nat) =
      (⟨none, "", ["note"]⟩, some 5)) ∧
    ((runWrapped (fun _ => true) ([] ++ [⟨'w', "bad"⟩]) ⟨none, "", []⟩ (5 : Nat)).2
        = none ∧
      (runWrapped (fun _ => true) ([] ++ [⟨'w', "bad"⟩]) ⟨none, "", []⟩
          (5 : Nat)).1.pending = some (PyErr.userWarningPromoted "bad")) :=
  ⟨(nonfatal_bug_warns_or_promotes (fun _ => false) [] ⟨none, "", []⟩ 'w' "note" 5
      rfl (by decide) (by decide)).1 rfl,
   (nonfatal_bug_warns_or_promotes (fun _ => true) [] ⟨none, "", []⟩ 'w' "bad" 5
      rfl (by decide) (by decide)).2 rfl⟩

/-- Claim C3: each wrapper of a native routine reporting a POSIX `iostat`
status (`hopen`, `hflush`, `hdelete`, `haccess`, `hdaccess`, `hreada`,
`hwritea`, and the typed `hread`/`hwrite` family through `hio_generic`)
raises a host `IOError` carrying the system error string for that code iff
the returned `iostat` is nonzero, and otherwise completes with its normal
result. -/
theorem iostat_wrappers_raise_ioerror_iff_nonzero :
    (∀ (f : String → String → Int × Int) (name status : String),
      py_hopen f name status =
        if (f name status).2 = 0 then Except.ok (f name status).1
        else Except.error (PyErr.ioError (f name status).2)) ∧
    (∀ (f : Int → Int) (tno : Int),
      py_hflush f tno =
        if f tno = 0 then Except.ok ()
        else Except.error (PyErr.ioError (f tno))) ∧
    (∀ (f : Int → String → Int) (tno : Int) (keyword : String),
      py_hdelete f tno keyword =
        if f tno keyword = 0 then Except.ok ()
        else Except.error (PyErr.ioError (f tno keyword))) ∧
    (∀ (f : Int → String → String → Int × Int) (tno : Int)
        (keyword status : String),
      py_haccess f tno keyword status =
        if (f tno keyword status).2 = 0 then Except.ok (f tno keyword status).1
        else Except.error (PyErr.ioError (f tno keyword status).2)) ∧
    (∀ (f : Int → Int) (ihandle : Int),
      py_hdaccess f ihandle =
        if f ihandle = 0 then Except.ok ()
        else Except.error (PyErr.ioError (f ihandle))) ∧
    (∀ (f : Int → String × Int) (ihandle : Int),
      py_hreada f ihandle =
        if (f ihandle).2 = 0 then Except.ok (f ihandle).1
        else Except.error (PyErr.ioError (f ihandle).2)) ∧
    (∀ (f : Int → String → Int → Int) (ihandle : Int) (line : String)
        (length : Int),
      py_hwritea f ihandle line length =
        if f ihandle line length = 0 then Except.ok ()
        else Except.error (PyErr.ioError (f ihandle line length))) ∧
    (∀ (hio_c : HioInvocation → Int) (dowrite : Bool) (mirtype : MirType)
        (dtype : HioDtype) (objsize : Nat) (item : Int) (buf : NdArray)
        (offset length : Int),
      hioKindOk dtype buf.kind = true → buf.itemsize = objsize →
      buf.contiguous = true →
      (Uvio.hio_generic hio_c dowrite mirtype dtype objsize item buf
          offset length).2 =
        (if hio_c ⟨item, dowrite, mirtype, offset,
              (sizeT length * objsize) % 2 ^ 64⟩ = 0 then Except.ok ()
         else Except.error (PyErr.ioError (hio_c ⟨item, dowrite, mirtype,
              offset, (sizeT length * objsize) % 2 ^ 64⟩)))) := by
  refine ⟨?_, ?_, ?_, ?_, ?_, ?_, ?_, ?_⟩
  · intro f name status
    unfold py_hopen check_iostat
    by_cases h : (f name status).2 = 0 <;> simp [h]
  · intro f tno
    unfold py_hflush check_iostat
    by_cases h : f tno = 0 <;> simp [h]
  · intro f tno keyword
    unfold py_hdelete check_iostat
    by_cases h : f tno keyword = 0 <;> simp [h]
  · intro f tno keyword status
    unfold py_haccess check_iostat
    by_cases h : (f tno keyword status).2 = 0 <;> simp [h]
  · intro f ihandle
    unfold py_hdaccess check_iostat
    by_cases h : f ihandle = 0 <;> simp [h]
  · intro f ihandle
    unfold py_hreada check_iostat
    by_cases h : (f ihandle).2 = 0 <;> simp [h]
  · intro f ihandle line length
    unfold py_hwritea check_iostat
    by_cases h : f ihandle line length = 0 <;> simp [h]
  · intro hio_c dowrite mirtype dtype objsize item buf offset length hk hs hc
    unfold Uvio.hio_generic check_iostat
    simp only [hk, hs, hc, ite_true, if_true, not_true, ite_false, if_false,
      ne_eq, not_false_eq_true]
    split <;> simp_all

/-- Witness for C3 (the `hio_generic` conjunct has hypotheses): a valid
2-byte integer buffer, successful iostat. -/
theorem iostat_wrappers_raise_ioerror_iff_nonzero_witness :
    (Uvio.hio_generic (fun _ => 0) false MirType.H_INT2 HioDtype.HD_INTEGER 2
        3 ⟨NpyKind.integer, 2, true, 10⟩ 0 5).2 =
      (if (fun (_ : HioInvocation) => (0 : Int)) ⟨3, false, MirType.H_INT2, 0,
            (sizeT 5 * 2) % 2 ^ 64⟩ = 0 then Except.ok ()
       else Except.error (PyErr.ioError ((fun (_ : HioInvocation) => (0 : Int))
            ⟨3, false, MirType.H_INT2, 0, (sizeT 5 * 2) % 2 ^ 64⟩))) :=
  iostat_wrappers_raise_ioerror_iff_nonzero.2.2.2.2.2.2.2 (fun _ => 0) false
    MirType.H_INT2 HioDtype.HD_INTEGER 2 3 ⟨NpyKind.integer, 2, true, 10⟩ 0 5
    (by decide) (by decide) (by decide)

/-- Claim C8: `py_uvscan` returns the native status as an ordinary value and
raises `IOError` iff that status is neither `0` (variable found) nor `-1`
(end of file); in particular `-1` is returned to the caller as a value. -/
theorem uvscan_returns_eof_as_value :
    ∀ (f : Int → String → Int) (tno : Int) (var : String),
      py_uvscan f tno var =
        if f tno var = 0 ∨ f tno var = -1 then Except.ok (f tno var)
        else Except.error (PyErr.ioError (f tno var)) := by
  intro f tno var
  unfold py_uvscan check_iostat
  by_cases h1 : f tno var = -1
  · simp [h1]
  · by_cases h0 : f tno var = 0 <;> simp [h0, h1]

/-! ## Lemmas about the array-checking utilities -/

/-- `check_int_array` succeeds iff the array is an integer ndarray of
platform-int itemsize and contiguous. -/
theorem check_int_array_none_iff (a : NdArray) (s : String) :
    check_int_array a s = none ↔
      (a.kind = NpyKind.integer ∧ a.itemsize = 4 ∧ a.contiguous = true) := by
  unfold check_int_array
  split_ifs <;> simp_all

/-- `check_float_array` succeeds iff float kind, itemsize 4, contiguous. -/
theorem check_float_array_none_iff (a : NdArray) (s : String) :
    check_float_array a s = none ↔
      (a.kind = NpyKind.floating ∧ a.itemsize = 4 ∧ a.contiguous = true) := by
  unfold check_float_array
  split_ifs <;> simp_all

/-- `check_double_array` succeeds iff float kind, itemsize 8, contiguous. -/
theorem check_double_array_none_iff (a : NdArray) (s : String) :
    check_double_array a s = none ↔
      (a.kind = NpyKind.floating ∧ a.itemsize = 8 ∧ a.contiguous = true) := by
  unfold check_double_array
  split_ifs <;> simp_all

/-- `check_complexf_array` succeeds iff complex kind, itemsize 8,
contiguous. -/
theorem check_complexf_array_none_iff (a : NdArray) (s : String) :
    check_complexf_array a s = none ↔
      (a.kind = NpyKind.complexKind ∧ a.itemsize = 8 ∧ a.contiguous = true) := by
  unfold check_complexf_array
  split_ifs <;> simp_all

/-- Any error produced by `check_int_array` is a TypeError/ValueError. -/
theorem check_int_array_some_tve (a : NdArray) (s : String) (e : PyErr)
    (h : check_int_array a s = some e) : e.isTypeOrValueError = true := by
  unfold check_int_array at h
  split_ifs at h <;> cases h <;> rfl

/-- Any error produced by `check_double_array` is a TypeError/ValueError. -/
theorem check_double_array_some_tve (a : NdArray) (s : String) (e : PyErr)
    (h : check_double_array a s = some e) : e.isTypeOrValueError = true := by
  unfold check_double_array at h
  split_ifs at h <;> cases h <;> rfl

/-- Any error produced by `check_complexf_array` is a TypeError/ValueError. -/
theorem check_complexf_array_some_tve (a : NdArray) (s : String) (e : PyErr)
    (h : check_complexf_array a s = some e) : e.isTypeOrValueError = true := by
  unfold check_complexf_array at h
  split_ifs at h <;> cases h <;> rfl

/-- When any `py_uvread` check fails (`_miriad_cmodule.c`), the wrapper
raises a TypeError/ValueError and invokes no native routine. -/
theorem mirc_uvread_blocks (f : Int → NdArray → NdArray → NdArray → Int → Int)
    (tno : Int) (pre dat fl : NdArray) (n : Int)
    (hno : ¬ uvChecksPass pre dat fl n) :
    (MirC.py_uvread f tno pre dat fl n).1 = [] ∧
    ∃ e, (MirC.py_uvread f tno pre dat fl n).2 = Except.error e ∧
      e.isTypeOrValueError = true := by
  unfold MirC.py_uvread
  cases hd : check_double_array pre ("preamble") with
  | some e =>
    refine ⟨?_, e, ?_, check_double_array_some_tve pre ("preamble") e hd⟩ <;>
      simp [hd]
  | none =>
  cases hdt : check_complexf_array dat ("data") with
  | some e =>
    refine ⟨?_, e, ?_, check_complexf_array_some_tve dat ("data") e hdt⟩ <;>
      simp [hd, hdt]
  | none =>
  cases hfl : check_int_array fl ("flags") with
  | some e =>
    refine ⟨?_, e, ?_, check_int_array_some_tve fl ("flags") e hfl⟩ <;>
      simp [hd, hdt, hfl]
  | none =>
    simp only [hd, hdt, hfl]
    split_ifs with hp hf hdn
    · simp [PyErr.isTypeOrValueError]
    · simp [PyErr.isTypeOrValueError]
    · simp [PyErr.isTypeOrValueError]
    · exact absurd ⟨(check_double_array_none_iff pre _).mp hd,
        (check_complexf_array_none_iff dat _).mp hdt,
        (check_int_array_none_iff fl _).mp hfl,
        by tauto, le_of_not_lt hf, le_of_not_lt hdn⟩ hno

/-- When every check passes (`_miriad_cmodule.c`), `py_uvread` invokes
exactly `uvread_c` and returns its `nread`. -/
theorem mirc_uvread_passes (f : Int → NdArray → NdArray → NdArray → Int → Int)
    (tno : Int) (pre dat fl : NdArray) (n : Int)
    (h : uvChecksPass pre dat fl n) :
    MirC.py_uvread f tno pre dat fl n =
      (["uvread_c"], Except.ok (f tno pre dat fl n)) := by
  obtain ⟨hpre, hdat, hfl, hp, hf, hdn⟩ := h
  have h1 : check_double_array pre ("preamble") = none :=
    (check_double_array_none_iff pre _).mpr hpre
  have h2 : check_complexf_array dat ("data") = none :=
    (check_complexf_array_none_iff dat _).mpr hdat
  have h3 : check_int_array fl ("flags") = none :=
    (check_int_array_none_iff fl _).mpr hfl
  have hp' : ¬ (pre.size ≠ 4 ∧ pre.size ≠ 5) := by tauto
  unfold MirC.py_uvread
  simp [h1, h2, h3, hp', not_lt.mpr hf, not_lt.mpr hdn]

/-- When any `py_uvwrite` check fails (`_miriad_cmodule.c`), the wrapper
raises a TypeError/ValueError and invokes no native routine. -/
theorem mirc_uvwrite_blocks
    (f : Int → NdArray → NdArray → NdArray → Int → Unit)
    (tno : Int) (pre dat fl : NdArray) (n : Int)
    (hno : ¬ uvChecksPass pre dat fl n) :
    (MirC.py_uvwrite f tno pre dat fl n).1 = [] ∧
    ∃ e, (MirC.py_uvwrite f tno pre dat fl n).2 = Except.error e ∧
      e.isTypeOrValueError = true := by
  unfold MirC.py_uvwrite
  cases hd : check_double_array pre ("preamble") with
  | some e =>
    refine ⟨?_, e, ?_, check_double_array_some_tve pre ("preamble") e hd⟩ <;>
      simp [hd]
  | none =>
  cases hdt : check_complexf_array dat ("data") with
  | some e =>
    refine ⟨?_, e, ?_, check_complexf_array_some_tve dat ("data") e hdt⟩ <;>
      simp [hd, hdt]
  | none =>
  cases hfl : check_int_array fl ("flags") with
  | some e =>
    refine ⟨?_, e, ?_, check_int_array_some_tve fl ("flags") e hfl⟩ <;>
      simp [hd, hdt, hfl]
  | none =>
    simp only [hd, hdt, hfl]
    split_ifs with hp hf hdn
    · simp [PyErr.isTypeOrValueError]
    · simp [PyErr.isTypeOrValueError]
    · simp [PyErr.isTypeOrValueError]
    · exact absurd ⟨(check_double_array_none_iff pre _).mp hd,
        (check_complexf_array_none_iff dat _).mp hdt,
        (check_int_array_none_iff fl _).mp hfl,
        by tauto, le_of_not_lt hf, le_of_not_lt hdn⟩ hno

/-- When every check passes (`_miriad_cmodule.c`), `py_uvwrite` invokes
exactly `uvwrite_c`. -/
theorem mirc_uvwrite_passes
    (f : Int → NdArray → NdArray → NdArray → Int → Unit)
    (tno : Int) (pre dat fl : NdArray) (n : Int)
    (h : uvChecksPass pre dat fl n) :
    MirC.py_uvwrite f tno pre dat fl n =
      (["uvwrite_c"], Except.ok (f tno pre dat fl n)) := by
  obtain ⟨hpre, hdat, hfl, hp, hf, hdn⟩ := h
  have h1 : check_double_array pre ("preamble") = none :=
    (check_double_array_none_iff pre _).mpr hpre
  have h2 : check_complexf_array dat ("data") = none :=
    (check_complexf_array_none_iff dat _).mpr hdat
  have h3 : check_int_array fl ("flags") = none :=
    (check_int_array_none_iff fl _).mpr hfl
  have hp' : ¬ (pre.size ≠ 4 ∧ pre.size ≠ 5) := by tauto
  unfold MirC.py_uvwrite
  simp [h1, h2, h3, hp', not_lt.mpr hf, not_lt.mpr hdn]

/-- When any `py_uvread` check fails (`_uviomodule.c`), the wrapper raises a
TypeError/ValueError and invokes no native routine. -/
theorem uvio_uvread_blocks (f : Int → NdArray → NdArray → NdArray → Int → Int)
    (tno : Int) (pre dat fl : NdArray) (n : Int)
    (hno : ¬ uvChecksPass pre dat fl n) :
    ∃ e, Uvio.py_uvread f tno pre dat fl n = ([], Except.error e) ∧
      e.isTypeOrValueError = true := by
  unfold Uvio.py_uvread
  by_cases h1 : ¬ (pre.kind = NpyKind.floating)
  · rw [if_pos h1]
    exact ⟨_, rfl, rfl⟩
  · rw [if_neg h1]
    by_cases h2 : pre.itemsize ≠ 8
    · rw [if_pos h2]
      exact ⟨_, rfl, rfl⟩
    · rw [if_neg h2]
      by_cases h3 : ¬ (pre.contiguous = true)
      · rw [if_pos h3]
        exact ⟨_, rfl, rfl⟩
      · rw [if_neg h3]
        by_cases h4 : ¬ (dat.kind = NpyKind.complexKind)
        · rw [if_pos h4]
          exact ⟨_, rfl, rfl⟩
        · rw [if_neg h4]
          by_cases h5 : dat.itemsize ≠ 8
          · rw [if_pos h5]
            exact ⟨_, rfl, rfl⟩
          · rw [if_neg h5]
            by_cases h6 : ¬ (dat.contiguous = true)
            · rw [if_pos h6]
              exact ⟨_, rfl, rfl⟩
            · rw [if_neg h6]
              by_cases h7 : ¬ (fl.kind = NpyKind.integer)
              · rw [if_pos h7]
                exact ⟨_, rfl, rfl⟩
              · rw [if_neg h7]
                by_cases h8 : fl.itemsize ≠ 4
                · rw [if_pos h8]
                  exact ⟨_, rfl, rfl⟩
                · rw [if_neg h8]
                  by_cases h9 : ¬ (fl.contiguous = true)
                  · rw [if_pos h9]
                    exact ⟨_, rfl, rfl⟩
                  · rw [if_neg h9]
                    by_cases h10 : pre.size ≠ 4 ∧ pre.size ≠ 5
                    · rw [if_pos h10]
                      exact ⟨_, rfl, rfl⟩
                    · rw [if_neg h10]
                      by_cases h11 : (fl.size : Int) < n
                      · rw [if_pos h11]
                        exact ⟨_, rfl, rfl⟩
                      · rw [if_neg h11]
                        by_cases h12 : (dat.size : Int) < n
                        · rw [if_pos h12]
                          exact ⟨_, rfl, rfl⟩
                        · rw [if_neg h12]
                          exact absurd ⟨⟨not_not.mp h1, not_not.mp h2, not_not.mp h3⟩,
                            ⟨not_not.mp h4, not_not.mp h5, not_not.mp h6⟩,
                            ⟨not_not.mp h7, not_not.mp h8, not_not.mp h9⟩,
                            by tauto, le_of_not_lt h11, le_of_not_lt h12⟩ hno

/-- When every check passes (`_uviomodule.c`), `py_uvread` invokes exactly
`uvread_c` and returns its `nread`. -/
theorem uvio_uvread_passes (f : Int → NdArray → NdArray → NdArray → Int → Int)
    (tno : Int) (pre dat fl : NdArray) (n : Int)
    (h : uvChecksPass pre dat fl n) :
    Uvio.py_uvread f tno pre dat fl n =
      (["uvread_c"], Except.ok (f tno pre dat fl n)) := by
  obtain ⟨⟨pk, ps, pc⟩, ⟨dk, ds, dc⟩, ⟨fk, fs, fc⟩, hp, hf, hdn⟩ := h
  have hp' : ¬ (pre.size ≠ 4 ∧ pre.size ≠ 5) := by tauto
  unfold Uvio.py_uvread
  rw [if_neg (not_not_intro pk), if_neg (not_not_intro ps), if_neg (not_not_intro pc), if_neg (not_not_intro dk), if_neg (not_not_intro ds), if_neg (not_not_intro dc), if_neg (not_not_intro fk), if_neg (not_not_intro fs), if_neg (not_not_intro fc), if_neg (hp'), if_neg (not_lt.mpr hf), if_neg (not_lt.mpr hdn)]

/-- When any `py_uvwrite` check fails (`_uviomodule.c`), the wrapper raises a
TypeError/ValueError and invokes no native routine. -/
theorem uvio_uvwrite_blocks (f : Int → NdArray → NdArray → NdArray → Int → Unit)
    (tno : Int) (pre dat fl : NdArray) (n : Int)
    (hno : ¬ uvChecksPass pre dat fl n) :
    ∃ e, Uvio.py_uvwrite f tno pre dat fl n = ([], Except.error e) ∧
      e.isTypeOrValueError = true := by
  unfold Uvio.py_uvwrite
  by_cases h1 : ¬ (pre.kind = NpyKind.floating)
  · rw [if_pos h1]
    exact ⟨_, rfl, rfl⟩
  · rw [if_neg h1]
    by_cases h2 : pre.itemsize ≠ 8
    · rw [if_pos h2]
      exact ⟨_, rfl, rfl⟩
    · rw [if_neg h2]
      by_cases h3 : ¬ (pre.contiguous = true)
      · rw [if_pos h3]
        exact ⟨_, rfl, rfl⟩
      · rw [if_neg h3]
        by_cases h4 : ¬ (dat.kind = NpyKind.complexKind)
        · rw [if_pos h4]
          exact ⟨_, rfl, rfl⟩
        · rw [if_neg h4]
          by_cases h5 : dat.itemsize ≠ 8
          · rw [if_pos h5]
            exact ⟨_, rfl, rfl⟩
          · rw [if_neg h5]
            by_cases h6 : ¬ (dat.contiguous = true)
            · rw [if_pos h6]
              exact ⟨_, rfl, rfl⟩
            · rw [if_neg h6]
              by_cases h7 : ¬ (fl.kind = NpyKind.integer)
              · rw [if_pos h7]
                exact ⟨_, rfl, rfl⟩
              · rw [if_neg h7]
                by_cases h8 : fl.itemsize ≠ 4
                · rw [if_pos h8]
                  exact ⟨_, rfl, rfl⟩
                · rw [if_neg h8]
                  by_cases h9 : ¬ (fl.contiguous = true)
                  · rw [if_pos h9]
                    exact ⟨_, rfl, rfl⟩
                  · rw [if_neg h9]
                    by_cases h10 : pre.size ≠ 4 ∧ pre.size ≠ 5
                    · rw [if_pos h10]
                      exact ⟨_, rfl, rfl⟩
                    · rw [if_neg h10]
                      by_cases h11 : (fl.size : Int) < n
                      · rw [if_pos h11]
                        exact ⟨_, rfl, rfl⟩
                      · rw [if_neg h11]
                        by_cases h12 : (dat.size : Int) < n
                        · rw [if_pos h12]
                          exact ⟨_, rfl, rfl⟩
                        · rw [if_neg h12]
                          exact absurd ⟨⟨not_not.mp h1, not_not.mp h2, not_not.mp h3⟩,
                            ⟨not_not.mp h4, not_not.mp h5, not_not.mp h6⟩,
                            ⟨not_not.mp h7, not_not.mp h8, not_not.mp h9⟩,
                            by tauto, le_of_not_lt h11, le_of_not_lt h12⟩ hno

/-- When every check passes (`_uviomodule.c`), `py_uvwrite` invokes exactly
`uvwrite_c` . -/
theorem uvio_uvwrite_passes (f : Int → NdArray → NdArray → NdArray → Int → Unit)
    (tno : Int) (pre dat fl : NdArray) (n : Int)
    (h : uvChecksPass pre dat fl n) :
    Uvio.py_uvwrite f tno pre dat fl n =
      (["uvwrite_c"], Except.ok (f tno pre dat fl n)) := by
  obtain ⟨⟨pk, ps, pc⟩, ⟨dk, ds, dc⟩, ⟨fk, fs, fc⟩, hp, hf, hdn⟩ := h
  have hp' : ¬ (pre.size ≠ 4 ∧ pre.size ≠ 5) := by tauto
  unfold Uvio.py_uvwrite
  rw [if_neg (not_not_intro pk), if_neg (not_not_intro ps), if_neg (not_not_intro pc), if_neg (not_not_intro dk), if_neg (not_not_intro ds), if_neg (not_not_intro dc), if_neg (not_not_intro fk), if_neg (not_not_intro fs), if_neg (not_not_intro fc), if_neg (hp'), if_neg (not_lt.mpr hf), if_neg (not_lt.mpr hdn)]

/-- Claim C5: in every `uvread`/`uvwrite` wrapper (both modules), if the
preamble element count is neither 4 nor 5, or the flags or data array has
fewer than `n` elements, or any array fails its dtype/itemsize/contiguity
constraint, the wrapper raises a host TypeError/ValueError and the native
`uvread_c`/`uvwrite_c` is never invoked; the native routine is invoked
exactly when all checks pass. -/
theorem uvread_uvwrite_validate_before_native :
    (∀ f tno pre dat fl n, ¬ uvChecksPass pre dat fl n →
      (MirC.py_uvread f tno pre dat fl n).1 = [] ∧
      ∃ e, (MirC.py_uvread f tno pre dat fl n).2 = Except.error e ∧
        e.isTypeOrValueError = true) ∧
    (∀ f tno pre dat fl n, uvChecksPass pre dat fl n →
      MirC.py_uvread f tno pre dat fl n =
        (["uvread_c"], Except.ok (f tno pre dat fl n))) ∧
    (∀ f tno pre dat fl n, ¬ uvChecksPass pre dat fl n →
      (MirC.py_uvwrite f tno pre dat fl n).1 = [] ∧
      ∃ e, (MirC.py_uvwrite f tno pre dat fl n).2 = Except.error e ∧
        e.isTypeOrValueError = true) ∧
    (∀ f tno pre dat fl n, uvChecksPass pre dat fl n →
      MirC.py_uvwrite f tno pre dat fl n =
        (["uvwrite_c"], Except.ok (f tno pre dat fl n))) ∧
    (∀ f tno pre dat fl n, ¬ uvChecksPass pre dat fl n →
      (Uvio.py_uvread f tno pre dat fl n).1 = [] ∧
      ∃ e, (Uvio.py_uvread f tno pre dat fl n).2 = Except.error e ∧
        e.isTypeOrValueError = true) ∧
    (∀ f tno pre dat fl n, uvChecksPass pre dat fl n →
      Uvio.py_uvread f tno pre dat fl n =
        (["uvread_c"], Except.ok (f tno pre dat fl n))) ∧
    (∀ f tno pre dat fl n, ¬ uvChecksPass pre dat fl n →
      (Uvio.py_uvwrite f tno pre dat fl n).1 = [] ∧
      ∃ e, (Uvio.py_uvwrite f tno pre dat fl n).2 = Except.error e ∧
        e.isTypeOrValueError = true) ∧
    (∀ f tno pre dat fl n, uvChecksPass pre dat fl n →
      Uvio.py_uvwrite f tno pre dat fl n =
        (["uvwrite_c"], Except.ok (f tno pre dat fl n))) := by
  refine ⟨mirc_uvread_blocks, mirc_uvread_passes, mirc_uvwrite_blocks,
    mirc_uvwrite_passes, ?_, uvio_uvread_passes, ?_, uvio_uvwrite_passes⟩
  · intro f tno pre dat fl n hno
    obtain ⟨e, heq, htve⟩ := uvio_uvread_blocks f tno pre dat fl n hno
    exact ⟨by rw [heq], e, by rw [heq], htve⟩
  · intro f tno pre dat fl n hno
    obtain ⟨e, heq, htve⟩ := uvio_uvwrite_blocks f tno pre dat fl n hno
    exact ⟨by rw [heq], e, by rw [heq], htve⟩

/-- Witness for C5: valid arrays of sizes 4/6/6 with `n = 5` reach
`uvread_c`; a preamble of the wrong dtype kind blocks the call with no
native invocation. -/
theorem uvread_uvwrite_validate_before_native_witness :
    MirC.py_uvread (fun _ _ _ _ _ => (3 : Int)) 7
        ⟨NpyKind.floating, 8, true, 4⟩ ⟨NpyKind.complexKind, 8, true, 6⟩
        ⟨NpyKind.integer, 4, true, 6⟩ 5 =
      (["uvread_c"], Except.ok 3) ∧
    (Uvio.py_uvread (fun _ _ _ _ _ => (3 : Int)) 7
        ⟨NpyKind.integer, 8, true, 4⟩ ⟨NpyKind.complexKind, 8, true, 6⟩
        ⟨NpyKind.integer, 4, true, 6⟩ 5).1 = [] :=
  ⟨uvread_uvwrite_validate_before_native.2.1 (fun _ _ _ _ _ => (3 : Int)) 7
      ⟨NpyKind.floating, 8, true, 4⟩ ⟨NpyKind.complexKind, 8, true, 6⟩
      ⟨NpyKind.integer, 4, true, 6⟩ 5 (by decide),
   (uvread_uvwrite_validate_before_native.2.2.2.2.1 (fun _ _ _ _ _ => (3 : Int))
      7 ⟨NpyKind.integer, 8, true, 4⟩ ⟨NpyKind.complexKind, 8, true, 6⟩
      ⟨NpyKind.integer, 4, true, 6⟩ 5 (by decide)).1⟩

/-- The 64-bit unsigned byte-count computation `(size_t) length * objsize`
agrees with exact arithmetic whenever `length` is nonnegative and the
product fits in 64 bits. -/
theorem sizeT_mul_eq (len : Int) (sz : Nat) (h0 : 0 ≤ len) (h1 : 1 ≤ sz)
    (h2 : len * (sz : Int) < 2 ^ 64) :
    (sizeT len * sz) % 2 ^ 64 = len.toNat * sz := by
  have hlen : len < 2 ^ 64 := by
    calc len = len * 1 := (mul_one len).symm
    _ ≤ len * (sz : Int) := by
        exact mul_le_mul_of_nonneg_left (by exact_mod_cast h1) h0
    _ < 2 ^ 64 := h2
  have hmod : len % 2 ^ 64 = len := Int.emod_eq_of_lt h0 (by exact_mod_cast hlen)
  unfold sizeT
  rw [hmod]
  apply Nat.mod_eq_of_lt
  have : (len.toNat : Int) * (sz : Int) < 2 ^ 64 := by
    rwa [Int.toNat_of_nonneg h0]
  exact_mod_cast this

/-- Claim C9: each typed `hread`/`hwrite` wrapper (`hreadb`/`hwriteb`
through `hreadc`/`hwritec`, i.e. `hio_generic` at the seven `MAKE_HIO`
instantiations) raises a TypeError and never invokes `hio_c` when the
buffer's dtype kind, itemsize or contiguity does not match the wrapper's
element type; when the checks pass, the byte count handed to `hio_c` is
the caller's element count times the wrapper's element size (1, 2, 4 or
8 bytes). -/
theorem hio_wrappers_validate_and_scale (spec : HioSpec)
    (hspec : spec ∈ hioTable) (hio_c : HioInvocation → Int) (dowrite : Bool)
    (item : Int) (buf : NdArray) (offset length : Int) :
    (spec.size = 1 ∨ spec.size = 2 ∨ spec.size = 4 ∨ spec.size = 8) ∧
    (¬ (hioKindOk spec.dtype buf.kind = true ∧ buf.itemsize = spec.size ∧
        buf.contiguous = true) →
      (Uvio.hio_generic hio_c dowrite spec.mirtype spec.dtype spec.size item
          buf offset length).1 = [] ∧
      ∃ m, (Uvio.hio_generic hio_c dowrite spec.mirtype spec.dtype spec.size
          item buf offset length).2 = Except.error (PyErr.typeError m)) ∧
    ((hioKindOk spec.dtype buf.kind = true ∧ buf.itemsize = spec.size ∧
        buf.contiguous = true) →
      0 ≤ length → length * (spec.size : Int) < 2 ^ 64 →
      (Uvio.hio_generic hio_c dowrite spec.mirtype spec.dtype spec.size item
          buf offset length).1 =
        [⟨item, dowrite, spec.mirtype, offset, length.toNat * spec.size⟩]) := by
  have hsz : spec.size = 1 ∨ spec.size = 2 ∨ spec.size = 4 ∨ spec.size = 8 := by
    have hall : ∀ s ∈ hioTable,
        s.size = 1 ∨ s.size = 2 ∨ s.size = 4 ∨ s.size = 8 := by decide
    exact hall spec hspec
  refine ⟨hsz, ?_, ?_⟩
  · intro hno
    unfold Uvio.hio_generic
    by_cases hk : hioKindOk spec.dtype buf.kind = true
    · by_cases hs : buf.itemsize = spec.size
      · by_cases hc : buf.contiguous = true
        · exact absurd ⟨hk, hs, hc⟩ hno
        · rw [if_neg (not_not_intro hk), if_neg (not_not_intro hs), if_pos hc]
          exact ⟨rfl, _, rfl⟩
      · rw [if_neg (not_not_intro hk), if_pos hs]
        exact ⟨rfl, _, rfl⟩
    · rw [if_pos hk]
      exact ⟨rfl, _, rfl⟩
  · intro ⟨hk, hs, hc⟩ h0 hfit
    have h1 : 1 ≤ spec.size := by rcases hsz with h | h | h | h <;> omega
    unfold Uvio.hio_generic
    rw [if_neg (not_not_intro hk), if_neg (not_not_intro hs),
      if_neg (not_not_intro hc)]
    simp only [List.cons.injEq, and_true]
    rw [sizeT_mul_eq length spec.size h0 h1 hfit]

/-- Witness for C9: `hreadj`-style parameters (`H_INT2`, integer kind,
element size 2) with a valid buffer and element count 5 produce a single
`hio_c` call of 10 bytes. -/
theorem hio_wrappers_validate_and_scale_witness :
    (Uvio.hio_generic (fun _ => 0) false MirType.H_INT2 HioDtype.HD_INTEGER 2
        3 ⟨NpyKind.integer, 2, true, 10⟩ 0 5).1 =
      [⟨3, false, MirType.H_INT2, 0, 10⟩] :=
  (hio_wrappers_validate_and_scale ⟨"j", MirType.H_INT2, HioDtype.HD_INTEGER, 2⟩
    (by decide) (fun _ => 0) false 3 ⟨NpyKind.integer, 2, true, 10⟩ 0
    5).2.2 (by decide) (by decide) (by decide)

/-- Helper for C10: when the probed type is not `"nonexistent"`,
`py_rdhd_generic` never returns Python `None`. -/
theorem rdhd_generic_ne_nothing
    (hdprobe_c : Int → String → String × String × Int)
    (haccess_c : Int → String → String → Int × Int)
    (hio_c : Int → MirType → Int → Int → Int) (hdaccess_c : Int → Int)
    (tno : Int) (itemname : String)
    (hne : (hdprobe_c tno itemname).2.1 ≠ "nonexistent") :
    MirC.py_rdhd_generic hdprobe_c haccess_c hio_c hdaccess_c tno itemname ≠
      Except.ok RdhdValue.nothing := by
  intro hR
  unfold MirC.py_rdhd_generic at hR
  rw [if_neg hne] at hR
  by_cases t2 : (hdprobe_c tno itemname).2.1 = "unknown"
  · rw [if_pos t2] at hR
    exact Except.noConfusion hR
  rw [if_neg t2] at hR
  by_cases hn0 : (hdprobe_c tno itemname).2.2 = 0
  · rw [if_pos hn0] at hR
    exact Except.noConfusion hR
  rw [if_neg hn0] at hR
  by_cases t4 : (hdprobe_c tno itemname).2.1 = "binary"
  · rw [if_pos t4] at hR
    exact Except.noConfusion hR
  rw [if_neg t4] at hR
  by_cases t5 : (hdprobe_c tno itemname).2.1 = "text"
  · rw [if_pos t5] at hR
    exact Except.noConfusion hR
  rw [if_neg t5] at hR
  by_cases t6 : (hdprobe_c tno itemname).2.1 = "character"
  · rw [if_pos t6] at hR
    simp at hR
  rw [if_neg t6] at hR
  by_cases hn1 : (hdprobe_c tno itemname).2.2 ≠ 1
  · rw [if_pos hn1] at hR
    exact Except.noConfusion hR
  rw [if_neg hn1] at hR
  repeat
    any_goals
      first
        | exact Except.noConfusion hR
        | (simp at hR)
        | split at hR
  rename_i s hs
  split_ifs at hs <;> (try cases hs) <;> simp_all

/-- Counterexample for C10: `hdprobe_c` reporting type `"character"` with
size `n = 0` makes `py_rdhd_generic` raise ValueError (the `n == 0` check
precedes the `"character"` branch), so the wrapper does not return the
string for this character-typed item. -/
theorem rdhd_generic_character_size_zero_cex :
    MirC.py_rdhd_generic (fun _ _ => ("abc", "character", 0))
        (fun _ _ _ => (1, 0)) (fun _ _ _ _ => 0) (fun _ => 0) 1 ("history") =
      Except.error (PyErr.valueError
        ("the size of item \"history\" couldn't be determined")) ∧
    MirC.py_rdhd_generic (fun _ _ => ("abc", "character", 0))
        (fun _ _ _ => (1, 0)) (fun _ _ _ _ => 0) (fun _ => 0) 1 ("history") ≠
      Except.ok (RdhdValue.str ("abc")) := by
  have h1 : MirC.py_rdhd_generic (fun _ _ => ("abc", "character", 0))
      (fun _ _ _ => (1, 0)) (fun _ _ _ _ => 0) (fun _ => 0) 1 ("history") =
      Except.error (PyErr.valueError
        ("the size of item \"history\" couldn't be determined")) := rfl
  refine ⟨h1, ?_⟩
  rw [h1]
  simp

/-- Claim C10, amended: `py_rdhd_generic` returns `None` iff the probed
type is `"nonexistent"`; it returns the probed string when the type is
`"character"` and the probed size is nonzero (a zero size raises
ValueError even for character items, since the `n == 0` check precedes
the character branch); it raises ValueError whenever the type is
`"unknown"`, `"binary"` or `"text"`, whenever the size is zero (type
`"nonexistent"` apart), and whenever a non-character item's element count
differs from one; and for the six numeric types it returns the numpy
scalar of the corresponding type provided the element count is one and
the haccess/hio/hdaccess item I/O reports success. -/
theorem rdhd_generic_type_dispatch
    (hdprobe_c : Int → String → String × String × Int)
    (haccess_c : Int → String → String → Int × Int)
    (hio_c : Int → MirType → Int → Int → Int) (hdaccess_c : Int → Int)
    (tno : Int) (itemname : String) :
    (MirC.py_rdhd_generic hdprobe_c haccess_c hio_c hdaccess_c tno itemname =
        Except.ok RdhdValue.nothing ↔
      (hdprobe_c tno itemname).2.1 = "nonexistent") ∧
    ((hdprobe_c tno itemname).2.1 = "character" →
      (hdprobe_c tno itemname).2.2 ≠ 0 →
      MirC.py_rdhd_generic hdprobe_c haccess_c hio_c hdaccess_c tno itemname =
        Except.ok (RdhdValue.str (hdprobe_c tno itemname).1)) ∧
    ((hdprobe_c tno itemname).2.1 = "unknown" →
      ∃ m, MirC.py_rdhd_generic hdprobe_c haccess_c hio_c hdaccess_c tno
          itemname = Except.error (PyErr.valueError m)) ∧
    ((hdprobe_c tno itemname).2.2 = 0 →
      (hdprobe_c tno itemname).2.1 ≠ "nonexistent" →
      ∃ m, MirC.py_rdhd_generic hdprobe_c haccess_c hio_c hdaccess_c tno
          itemname = Except.error (PyErr.valueError m)) ∧
    ((hdprobe_c tno itemname).2.1 = "binary" →
      ∃ m, MirC.py_rdhd_generic hdprobe_c haccess_c hio_c hdaccess_c tno
          itemname = Except.error (PyErr.valueError m)) ∧
    ((hdprobe_c tno itemname).2.1 = "text" →
      ∃ m, MirC.py_rdhd_generic hdprobe_c haccess_c hio_c hdaccess_c tno
          itemname = Except.error (PyErr.valueError m)) ∧
    ((hdprobe_c tno itemname).2.1 ≠ "nonexistent" →
      (hdprobe_c tno itemname).2.1 ≠ "character" →
      (hdprobe_c tno itemname).2.2 ≠ 1 →
      ∃ m, MirC.py_rdhd_generic hdprobe_c haccess_c hio_c hdaccess_c tno
          itemname = Except.error (PyErr.valueError m)) ∧
    ((hdprobe_c tno itemname).2.1 = "real" →
      (hdprobe_c tno itemname).2.2 = 1 →
      (haccess_c tno itemname ("read")).2 = 0 →
      hio_c (haccess_c tno itemname ("read")).1 MirType.H_REAL 4 4 = 0 →
      hdaccess_c (haccess_c tno itemname ("read")).1 = 0 →
      MirC.py_rdhd_generic hdprobe_c haccess_c hio_c hdaccess_c tno itemname =
        Except.ok (RdhdValue.scalar ScalarType.float32)) ∧
    ((hdprobe_c tno itemname).2.1 = "double" →
      (hdprobe_c tno itemname).2.2 = 1 →
      (haccess_c tno itemname ("read")).2 = 0 →
      hio_c (haccess_c tno itemname ("read")).1 MirType.H_DBLE 8 8 = 0 →
      hdaccess_c (haccess_c tno itemname ("read")).1 = 0 →
      MirC.py_rdhd_generic hdprobe_c haccess_c hio_c hdaccess_c tno itemname =
        Except.ok (RdhdValue.scalar ScalarType.float64)) ∧
    ((hdprobe_c tno itemname).2.1 = "integer*2" →
      (hdprobe_c tno itemname).2.2 = 1 →
      (haccess_c tno itemname ("read")).2 = 0 →
      hio_c (haccess_c tno itemname ("read")).1 MirType.H_INT2 4 2 = 0 →
      hdaccess_c (haccess_c tno itemname ("read")).1 = 0 →
      MirC.py_rdhd_generic hdprobe_c haccess_c hio_c hdaccess_c tno itemname =
        Except.ok (RdhdValue.scalar ScalarType.int16)) ∧
    ((hdprobe_c tno itemname).2.1 = "integer" →
      (hdprobe_c tno itemname).2.2 = 1 →
      (haccess_c tno itemname ("read")).2 = 0 →
      hio_c (haccess_c tno itemname ("read")).1 MirType.H_INT 4 4 = 0 →
      hdaccess_c (haccess_c tno itemname ("read")).1 = 0 →
      MirC.py_rdhd_generic hdprobe_c haccess_c hio_c hdaccess_c tno itemname =
        Except.ok (RdhdValue.scalar ScalarType.int32)) ∧
    ((hdprobe_c tno itemname).2.1 = "integer*8" →
      (hdprobe_c tno itemname).2.2 = 1 →
      (haccess_c tno itemname ("read")).2 = 0 →
      hio_c (haccess_c tno itemname ("read")).1 MirType.H_INT8 8 8 = 0 →
      hdaccess_c (haccess_c tno itemname ("read")).1 = 0 →
      MirC.py_rdhd_generic hdprobe_c haccess_c hio_c hdaccess_c tno itemname =
        Except.ok (RdhdValue.scalar ScalarType.int64)) ∧
    ((hdprobe_c tno itemname).2.1 = "complex" →
      (hdprobe_c tno itemname).2.2 = 1 →
      (haccess_c tno itemname ("read")).2 = 0 →
      hio_c (haccess_c tno itemname ("read")).1 MirType.H_CMPLX 8 8 = 0 →
      hdaccess_c (haccess_c tno itemname ("read")).1 = 0 →
      MirC.py_rdhd_generic hdprobe_c haccess_c hio_c hdaccess_c tno itemname =
        Except.ok (RdhdValue.scalar ScalarType.complex64)) := by
  refine ⟨?_, ?_, ?_, ?_, ?_, ?_, ?_, ?_, ?_, ?_, ?_, ?_, ?_⟩
  · constructor
    · intro hR
      by_contra hne
      exact rdhd_generic_ne_nothing hdprobe_c haccess_c hio_c hdaccess_c tno
        itemname hne hR
    · intro t1
      unfold MirC.py_rdhd_generic
      rw [if_pos t1]
  · intro t6 hn0
    simp +decide [MirC.py_rdhd_generic, t6, hn0]
  · intro t2
    unfold MirC.py_rdhd_generic
    rw [if_neg (show ¬ (hdprobe_c tno itemname).2.1 = "nonexistent" by
          simp +decide [t2]), if_pos t2]
    exact ⟨_, rfl⟩
  · intro hn0 t1
    unfold MirC.py_rdhd_generic
    rw [if_neg t1]
    by_cases t2 : (hdprobe_c tno itemname).2.1 = "unknown"
    · rw [if_pos t2]
      exact ⟨_, rfl⟩
    · rw [if_neg t2, if_pos hn0]
      exact ⟨_, rfl⟩
  · intro t4
    unfold MirC.py_rdhd_generic
    rw [if_neg (show ¬ (hdprobe_c tno itemname).2.1 = "nonexistent" by
          simp +decide [t4]),
      if_neg (show ¬ (hdprobe_c tno itemname).2.1 = "unknown" by
          simp +decide [t4])]
    by_cases hn0 : (hdprobe_c tno itemname).2.2 = 0
    · rw [if_pos hn0]
      exact ⟨_, rfl⟩
    · rw [if_neg hn0, if_pos t4]
      exact ⟨_, rfl⟩
  · intro t5
    unfold MirC.py_rdhd_generic
    rw [if_neg (show ¬ (hdprobe_c tno itemname).2.1 = "nonexistent" by
          simp +decide [t5]),
      if_neg (show ¬ (hdprobe_c tno itemname).2.1 = "unknown" by
          simp +decide [t5])]
    by_cases hn0 : (hdprobe_c tno itemname).2.2 = 0
    · rw [if_pos hn0]
      exact ⟨_, rfl⟩
    · rw [if_neg hn0,
        if_neg (show ¬ (hdprobe_c tno itemname).2.1 = "binary" by
          simp +decide [t5]), if_pos t5]
      exact ⟨_, rfl⟩
  · intro t1 t6 hn1
    unfold MirC.py_rdhd_generic
    rw [if_neg t1]
    by_cases t2 : (hdprobe_c tno itemname).2.1 = "unknown"
    · rw [if_pos t2]
      exact ⟨_, rfl⟩
    · rw [if_neg t2]
      by_cases hn0 : (hdprobe_c tno itemname).2.2 = 0
      · rw [if_pos hn0]
        exact ⟨_, rfl⟩
      · rw [if_neg hn0]
        by_cases t4 : (hdprobe_c tno itemname).2.1 = "binary"
        · rw [if_pos t4]
          exact ⟨_, rfl⟩
        · rw [if_neg t4]
          by_cases t5 : (hdprobe_c tno itemname).2.1 = "text"
          · rw [if_pos t5]
            exact ⟨_, rfl⟩
          · rw [if_neg t5, if_neg t6, if_pos hn1]
            exact ⟨_, rfl⟩
  · intro ht hn1 hacc hhio hdac
    simp +decide [MirC.py_rdhd_generic, ht, hn1, hacc, hhio, hdac, check_iostat]
  · intro ht hn1 hacc hhio hdac
    simp +decide [MirC.py_rdhd_generic, ht, hn1, hacc, hhio, hdac, check_iostat]
  · intro ht hn1 hacc hhio hdac
    simp +decide [MirC.py_rdhd_generic, ht, hn1, hacc, hhio, hdac, check_iostat]
  · intro ht hn1 hacc hhio hdac
    simp +decide [MirC.py_rdhd_generic, ht, hn1, hacc, hhio, hdac, check_iostat]
  · intro ht hn1 hacc hhio hdac
    simp +decide [MirC.py_rdhd_generic, ht, hn1, hacc, hhio, hdac, check_iostat]
  · intro ht hn1 hacc hhio hdac
    simp +decide [MirC.py_rdhd_generic, ht, hn1, hacc, hhio, hdac, check_iostat]

/-- Witness for C10 (amended): a probed `"real"` item of size one with all
item I/O succeeding yields a Float32 numpy scalar. -/
theorem rdhd_generic_type_dispatch_witness :
    MirC.py_rdhd_generic (fun _ _ => ("", "real", 1)) (fun _ _ _ => (2, 0))
        (fun _ _ _ _ => 0) (fun _ => 0) 1 ("junk") =
      Except.ok (RdhdValue.scalar ScalarType.float32) :=
  (rdhd_generic_type_dispatch (fun _ _ => ("", "real", 1))
      (fun _ _ _ => (2, 0)) (fun _ _ _ _ => 0) (fun _ => 0) 1
      ("junk")).2.2.2.2.2.2.2.1 rfl rfl rfl rfl rfl

/-- Counterexample for C4: `probe_uvchkshadow` (present in both method
tables) returns its boolean result having invoked no native routine, in
either `HAVE_UVCHKSHADOW` configuration; hence not every exported entry
point calls into the native library. -/
theorem probe_uvchkshadow_returns_without_native_call :
    (py_probe_uvchkshadow true).1 = [] ∧
    (py_probe_uvchkshadow false).1 = [] ∧
    ((uvio_methods ++ miriad_c_methods).all (fun m => m.callsNative)) =
      false :=
  ⟨rfl, rfl, by decide⟩

/-- Claim C4, amended: every exported entry point of the two extension
modules validates the shape/type/contiguity of every numeric-array
argument it accepts before any data pointer reaches native code, and every
entry point except `probe_uvchkshadow` (which reports a compile-time
feature flag) and the five `mirwcs_set_*` field mutators (which write
directly into the wrapped `wcsprm` struct) invokes at least one
native-library routine before returning a result. -/
theorem exported_entry_point_inventory :
    ((uvio_methods ++ miriad_c_methods).all
      (fun m => m.arraysValidated &&
        (m.callsNative || (decide (m.name = "probe_uvchkshadow")) ||
          (decide (m.name ∈ wcsFieldSetters))))) = true := by
  decide

/-- Claim C7: every entry in both modules' method tables carries a
self-documenting signature string: its documentation string is the
exported name, a space, and the positional-argument signature. -/
theorem method_docstrings_self_documenting :
    ((uvio_methods ++ miriad_c_methods).all
      (fun m => (m.name ++ " ").data.isPrefixOf m.doc.data)) = true := by
  decide

/-- Counterexample for C6: `bug_msg` is a module-level mutable variable of
the repository distinct from the exception-type handle, and it is written
by `bug_handler` (the fatal message is stored there and read back by
`mts_set_bug`), so the repository's global mutable state is not limited to
the single exception-type handle. -/
theorem bug_msg_is_extra_mutable_global :
    (mirtasksupport_globals.all
      (fun g => !(g.isMutable && !(g.writers.isEmpty)) ||
        g.isExceptionTypeHandle)) = false ∧
    (bug_handler (fun _ => false) ⟨'f', "overflow"⟩ ⟨none, "", []⟩).1.bugMsg =
      "overflow" ∧
    mts_set_bug ⟨none, "overflow", []⟩ =
      ⟨some (PyErr.miriadError ("overflow")), "overflow", []⟩ :=
  ⟨by decide, rfl, rfl⟩

/-- Claim C6, amended: the repository's module-level mutable state consists
of exactly one process-wide exception-type handle plus the two pieces of
bug-shim state that support it — the setjmp recovery buffer
`mts_bug_recover` and the saved fatal-message buffer `bug_msg` (through
which the message flows from `bug_handler` to `mts_set_bug`). -/
theorem globals_are_handle_plus_bug_shim_state :
    ((mirtasksupport_globals.filter
      (fun g => g.isExceptionTypeHandle)).length = 1) ∧
    (mirtasksupport_globals.all
      (fun g => g.isExceptionTypeHandle ||
        (decide (g.name = "mts_bug_recover")) ||
        (decide (g.name = "bug_msg")))) = true :=
  ⟨by decide, by decide⟩

end MiriadPython
